import Mathlib

/-!
Verification of the goose logger subsystem (src/logger.rs) against its
natural-language specification.

The Rust source is shallowly embedded: pure formatting functions become Lean
functions on `String`/`Nat`/`Bool`, the stateful logger thread becomes explicit
state passing over a `LoggerState`, and the file-system interactions (whether a
`File::create` or a buffered `write` succeeds) are supplied by an oracle
(`IoEnv`).  Machine integers (`u64`, `u16`, `usize`) are modelled as `Nat`:
none of the values involved (elapsed milliseconds, status codes, user ids,
buffer capacities) are ever close to overflow in the code paths modelled here,
and the logger performs no arithmetic on them other than rendering them in
decimal.
-/

/-! ### Rendering helpers (Rust `Display`/`Debug` output) -/

/-- Rust `Display` rendering of `bool` (`format!("\x7b\x7d", b)`). -/
def rustBool : Bool → String
  | true => "true"
  | false => "false"

/-- Rust `Debug` rendering of a string slice: the text surrounded by double
quotes, with inner `"` and `\` backslash-escaped.  (Escapes for control
characters are not modelled; no input considered below contains any.) -/
def rustDebugStr (s : String) : String :=
  "\"" ++ String.mk (s.data.flatMap fun c =>
    if c = '"' then ['\\', '"'] else if c = '\\' then ['\\', '\\'] else [c]) ++ "\""

/-- Rust `Debug` (`\x7b:?\x7d`) rendering of an `Option` whose payload's own
`Debug` rendering is carried as a string. -/
def rustDebugOption : Option String → String
  | none => "None"
  | some s => "Some(" ++ s ++ ")"

/-! ### The log message types

`GooseRequestMetric`, `GooseErrorMetric`, `GooseTaskMetric` (src/metrics.rs)
and `GooseDebug` (src/goose.rs) are declared outside the sampled sources; the
fields below are exactly the ones src/logger.rs reads, with the semantics
given by spec §3 (Data Model).  The `raw` field of a request/error metric is a
`GooseRawRequest` structure that the logger only ever passes through
`format!("\x7b:?\x7d", ..)`; the model therefore carries its `Debug` rendering
as a string.  Likewise `GooseDebug.request`/`header`/`body` are `Option`s whose
payloads are only rendered with `\x7b:?\x7d`, so the model carries the payload's
`Debug` rendering. -/

/-- Per-request metric (spec §3 "Request Metric"). -/
structure GooseRequestMetric where
  elapsed : Nat
  raw : String
  name : String
  final_url : String
  redirected : Bool
  response_time : Nat
  status_code : Nat
  success : Bool
  update : Bool
  user : Nat
  error : String
  coordinated_omission_elapsed : Nat
  user_cadence : Nat
deriving DecidableEq

/-- Per-error metric (spec §3 "Error Record"). -/
structure GooseErrorMetric where
  elapsed : Nat
  raw : String
  name : String
  final_url : String
  redirected : Bool
  response_time : Nat
  status_code : Nat
  user : Nat
  error : String
deriving DecidableEq

/-- Per-task metric (spec §3 "Task Metric"). -/
structure GooseTaskMetric where
  elapsed : Nat
  taskset_index : Nat
  task_index : Nat
  name : String
  run_time : Nat
  success : Bool
  user : Nat
deriving DecidableEq

/-- Debug record (spec §3 "Debug Record"). -/
structure GooseDebug where
  tag : String
  request : Option String
  header : Option String
  body : Option String
deriving DecidableEq

/-! ### Log formats and `FromStr` (src/logger.rs lines 163-202) -/

/-- Defines the formats logs can be written to file. -/
inductive GooseLogFormat where
  | Csv
  | Json
  | Raw
  | Pretty
deriving DecidableEq

/-- The error type returned by `GooseLogFormat::from_str`; only the variant
the logger constructs is modelled. -/
inductive GooseError where
  | InvalidOption (option : String) (value : String) (detail : String)
deriving DecidableEq

/-- ASCII-lowercasing, modelling the `(?i)` case-insensitive regex flag.
(`Char.toLower` lowers exactly the ASCII uppercase letters; the regex crate's
Unicode case folding agrees with this on all ASCII inputs, which is the domain
the CLI deals in.) -/
def asciiLower (s : String) : String := String.mk (s.data.map Char.toLower)

/-- Equality of `Except` results is decidable (used to evaluate the model on
closed inputs). -/
instance {e a : Type} [DecidableEq e] [DecidableEq a] : DecidableEq (Except e a) :=
  fun x y =>
  match x, y with
  | Except.ok u, Except.ok v =>
    match decEq u v with
    | isTrue h => isTrue (h ▸ rfl)
    | isFalse h => isFalse (fun hh => h (Except.ok.inj hh))
  | Except.ok _, Except.error _ => isFalse (fun hh => Except.noConfusion hh)
  | Except.error _, Except.ok _ => isFalse (fun hh => Except.noConfusion hh)
  | Except.error u, Except.error v =>
    match decEq u v with
    | isTrue h => isTrue (h ▸ rfl)
    | isFalse h => isFalse (fun hh => h (Except.error.inj hh))

/-- `GooseLogFormat::from_str`.  The source builds the `RegexSet`
`[(?i)^csv$, (?i)^(json|jsn)$, (?i)^raw$, (?i)^pretty$]` and tests
`matched(0)`, `matched(1)`, `matched(2)`, `matched(3)` in that order; each
pattern is an anchored, case-insensitive full-string match, modelled by
comparing the ASCII-lowercased input. -/
def GooseLogFormat.fromStr (s : String) : Except GooseError GooseLogFormat :=
  let l := asciiLower s
  if l = "csv" then Except.ok GooseLogFormat.Csv
  else if l = "json" ∨ l = "jsn" then Except.ok GooseLogFormat.Json
  else if l = "raw" then Except.ok GooseLogFormat.Raw
  else if l = "pretty" then Except.ok GooseLogFormat.Pretty
  else Except.error (GooseError.InvalidOption
    ("GooseLogFormat::" ++ rustDebugStr s) s
    "Invalid log_format, expected: csv, json, or raw")

/-! ### CSV headers (src/logger.rs lines 204-261) -/

/-- `debug_csv_header()`: no quotes needed in header. -/
def debug_csv_header : String :=
  "tag" ++ "," ++ "request" ++ "," ++ "header" ++ "," ++ "body"

/-- `error_csv_header()`: no quotes needed in header. -/
def error_csv_header : String :=
  "elapsed" ++ "," ++ "raw" ++ "," ++ "name" ++ "," ++ "final_url" ++ "," ++
  "redirected" ++ "," ++ "response_time" ++ "," ++ "status_code" ++ "," ++
  "user" ++ "," ++ "error"

/-- `requests_csv_header()`: no quotes needed in header. -/
def requests_csv_header : String :=
  "elapsed" ++ "," ++ "raw" ++ "," ++ "name" ++ "," ++ "final_url" ++ "," ++
  "redirected" ++ "," ++ "response_time" ++ "," ++ "status_code" ++ "," ++
  "success" ++ "," ++ "update" ++ "," ++ "user" ++ "," ++ "error" ++ "," ++
  "coordinated_omission_elapsed" ++ "," ++ "user_cadence"

/-- `tasks_csv_header()`: no quotes needed in header. -/
def tasks_csv_header : String :=
  "elapsed" ++ "," ++ "taskset_index" ++ "," ++ "task_index" ++ "," ++
  "name" ++ "," ++ "run_time" ++ "," ++ "success" ++ "," ++ "user"

/-! ### CSV rows (the `prepare_csv` implementations, src/logger.rs) -/

/-- The `\"\x7b\x7d\"` pattern of the `prepare_csv` format strings: the field's
`Display` rendering placed between literal double quotes.  Note that inner
double quotes are NOT escaped (the source comment reads "@TODO: ... escape
inner quotes etc."). -/
def quoteUnescaped (s : String) : String := "\"" ++ s ++ "\""

/-- `prepare_csv` for `GooseDebug` (src/logger.rs lines 293-300): the source
format string is `"\"\x7b\x7d\",\"\x7b:?\x7d\",\"\x7b:?\x7d\",\"\x7b:?\x7d\""`
applied to `tag`, `request`, `header`, `body`. -/
def GooseDebug.prepare_csv (debug : GooseDebug) : String :=
  quoteUnescaped debug.tag ++ "," ++
  quoteUnescaped (rustDebugOption debug.request) ++ "," ++
  quoteUnescaped (rustDebugOption debug.header) ++ "," ++
  quoteUnescaped (rustDebugOption debug.body)

/-- `prepare_csv` for `GooseErrorMetric` (src/logger.rs lines 324-338): the
source format string is
`"\x7b\x7d,\"\x7b:?\x7d\",\"\x7b\x7d\",\"\x7b\x7d\",\x7b\x7d,\x7b\x7d,\x7b\x7d,\x7b\x7d,\"\x7b\x7d\""`;
`raw`, `name`, `final_url` and `error` are quoted, everything else is not. -/
def GooseErrorMetric.prepare_csv (request : GooseErrorMetric) : String :=
  Nat.repr request.elapsed ++ "," ++
  quoteUnescaped request.raw ++ "," ++
  quoteUnescaped request.name ++ "," ++
  quoteUnescaped request.final_url ++ "," ++
  rustBool request.redirected ++ "," ++
  Nat.repr request.response_time ++ "," ++
  Nat.repr request.status_code ++ "," ++
  Nat.repr request.user ++ "," ++
  quoteUnescaped request.error

/-- `prepare_csv` for `GooseRequestMetric` (src/logger.rs lines 362-380): the
source format string is
`"\x7b\x7d,\"\x7b:?\x7d\",\"\x7b\x7d\",\"\x7b\x7d\",\x7b\x7d,\x7b\x7d,\x7b\x7d,\x7b\x7d,\x7b\x7d,\x7b\x7d,\x7b\x7d,\x7b\x7d,\x7b\x7d"`;
only `raw`, `name` and `final_url` are quoted — in particular the `error`
string field is NOT quoted in this row. -/
def GooseRequestMetric.prepare_csv (request : GooseRequestMetric) : String :=
  Nat.repr request.elapsed ++ "," ++
  quoteUnescaped request.raw ++ "," ++
  quoteUnescaped request.name ++ "," ++
  quoteUnescaped request.final_url ++ "," ++
  rustBool request.redirected ++ "," ++
  Nat.repr request.response_time ++ "," ++
  Nat.repr request.status_code ++ "," ++
  rustBool request.success ++ "," ++
  rustBool request.update ++ "," ++
  Nat.repr request.user ++ "," ++
  request.error ++ "," ++
  Nat.repr request.coordinated_omission_elapsed ++ "," ++
  Nat.repr request.user_cadence

/-- `prepare_csv` for `GooseTaskMetric` (src/logger.rs lines 404-416): the
source format string is
`"\x7b\x7d,\x7b\x7d,\x7b\x7d,\"\x7b\x7d\",\x7b\x7d,\x7b\x7d,\x7b\x7d"`; only
`name` is quoted. -/
def GooseTaskMetric.prepare_csv (request : GooseTaskMetric) : String :=
  Nat.repr request.elapsed ++ "," ++
  Nat.repr request.taskset_index ++ "," ++
  Nat.repr request.task_index ++ "," ++
  quoteUnescaped request.name ++ "," ++
  Nat.repr request.run_time ++ "," ++
  rustBool request.success ++ "," ++
  Nat.repr request.user

/-! ### Non-CSV renderings

`Json` uses `serde_json::json!(message).to_string()` (one self-describing
object per line, keys in serde's alphabetical order, cf. the example output in
the module documentation of src/logger.rs), `Raw` is the `\x7b:?\x7d` `Debug`
rendering and `Pretty` the `\x7b:#?\x7d` pretty `Debug` rendering.  These
renderers live in external crates (serde_json, the derived `Debug` impls); the
models below are total string-valued functions of the message; no claim
depends on their exact output, only on which of them a message is routed
through and to which file the result is written. -/

/-- Modelled from the spec: serde_json rendering of a `GooseDebug` ("JSON
format is one object per line matching the entity field names", spec §6);
key order follows the sample line in the src/logger.rs module docs. -/
def GooseDebug.json (m : GooseDebug) : String :=
  "\x7b\"body\":" ++ rustDebugOption m.body ++
  ",\"header\":" ++ rustDebugOption m.header ++
  ",\"request\":" ++ rustDebugOption m.request ++
  ",\"tag\":" ++ rustDebugStr m.tag ++ "\x7d"

/-- Modelled from the spec: derived `Debug` rendering of a `GooseDebug`
("Raw (single-line debug rendering)", spec §4.3). -/
def GooseDebug.rawDebug (m : GooseDebug) : String :=
  "GooseDebug \x7b tag: " ++ rustDebugStr m.tag ++
  ", request: " ++ rustDebugOption m.request ++
  ", header: " ++ rustDebugOption m.header ++
  ", body: " ++ rustDebugOption m.body ++ " \x7d"

/-- Modelled from the spec: pretty (`\x7b:#?\x7d`) `Debug` rendering of a
`GooseDebug` ("Pretty (multi-line debug)", spec §4.3). -/
def GooseDebug.prettyDebug (m : GooseDebug) : String :=
  "GooseDebug \x7b\n    tag: " ++ rustDebugStr m.tag ++
  ",\n    request: " ++ rustDebugOption m.request ++
  ",\n    header: " ++ rustDebugOption m.header ++
  ",\n    body: " ++ rustDebugOption m.body ++ ",\n\x7d"

/-- Modelled from the spec: serde_json rendering of a `GooseErrorMetric`
(spec §6 "JSON format is one object per line"). -/
def GooseErrorMetric.json (m : GooseErrorMetric) : String :=
  "\x7b\"elapsed\":" ++ Nat.repr m.elapsed ++
  ",\"error\":" ++ rustDebugStr m.error ++
  ",\"final_url\":" ++ rustDebugStr m.final_url ++
  ",\"name\":" ++ rustDebugStr m.name ++
  ",\"raw\":" ++ m.raw ++
  ",\"redirected\":" ++ rustBool m.redirected ++
  ",\"response_time\":" ++ Nat.repr m.response_time ++
  ",\"status_code\":" ++ Nat.repr m.status_code ++
  ",\"user\":" ++ Nat.repr m.user ++ "\x7d"

/-- Modelled from the spec: derived `Debug` rendering of a `GooseErrorMetric`. -/
def GooseErrorMetric.rawDebug (m : GooseErrorMetric) : String :=
  "GooseErrorMetric \x7b elapsed: " ++ Nat.repr m.elapsed ++
  ", raw: " ++ m.raw ++
  ", name: " ++ rustDebugStr m.name ++
  ", final_url: " ++ rustDebugStr m.final_url ++
  ", redirected: " ++ rustBool m.redirected ++
  ", response_time: " ++ Nat.repr m.response_time ++
  ", status_code: " ++ Nat.repr m.status_code ++
  ", user: " ++ Nat.repr m.user ++
  ", error: " ++ rustDebugStr m.error ++ " \x7d"

/-- Modelled from the spec: pretty `Debug` rendering of a `GooseErrorMetric`. -/
def GooseErrorMetric.prettyDebug (m : GooseErrorMetric) : String :=
  "GooseErrorMetric \x7b\n    elapsed: " ++ Nat.repr m.elapsed ++
  ",\n    raw: " ++ m.raw ++
  ",\n    name: " ++ rustDebugStr m.name ++
  ",\n    final_url: " ++ rustDebugStr m.final_url ++
  ",\n    redirected: " ++ rustBool m.redirected ++
  ",\n    response_time: " ++ Nat.repr m.response_time ++
  ",\n    status_code: " ++ Nat.repr m.status_code ++
  ",\n    user: " ++ Nat.repr m.user ++
  ",\n    error: " ++ rustDebugStr m.error ++ ",\n\x7d"

/-- Modelled from the spec: serde_json rendering of a `GooseRequestMetric`. -/
def GooseRequestMetric.json (m : GooseRequestMetric) : String :=
  "\x7b\"coordinated_omission_elapsed\":" ++ Nat.repr m.coordinated_omission_elapsed ++
  ",\"elapsed\":" ++ Nat.repr m.elapsed ++
  ",\"error\":" ++ rustDebugStr m.error ++
  ",\"final_url\":" ++ rustDebugStr m.final_url ++
  ",\"name\":" ++ rustDebugStr m.name ++
  ",\"raw\":" ++ m.raw ++
  ",\"redirected\":" ++ rustBool m.redirected ++
  ",\"response_time\":" ++ Nat.repr m.response_time ++
  ",\"status_code\":" ++ Nat.repr m.status_code ++
  ",\"success\":" ++ rustBool m.success ++
  ",\"update\":" ++ rustBool m.update ++
  ",\"user\":" ++ Nat.repr m.user ++
  ",\"user_cadence\":" ++ Nat.repr m.user_cadence ++ "\x7d"

/-- Modelled from the spec: derived `Debug` rendering of a `GooseRequestMetric`. -/
def GooseRequestMetric.rawDebug (m : GooseRequestMetric) : String :=
  "GooseRequestMetric \x7b elapsed: " ++ Nat.repr m.elapsed ++
  ", raw: " ++ m.raw ++
  ", name: " ++ rustDebugStr m.name ++
  ", final_url: " ++ rustDebugStr m.final_url ++
  ", redirected: " ++ rustBool m.redirected ++
  ", response_time: " ++ Nat.repr m.response_time ++
  ", status_code: " ++ Nat.repr m.status_code ++
  ", success: " ++ rustBool m.success ++
  ", update: " ++ rustBool m.update ++
  ", user: " ++ Nat.repr m.user ++
  ", error: " ++ rustDebugStr m.error ++
  ", coordinated_omission_elapsed: " ++ Nat.repr m.coordinated_omission_elapsed ++
  ", user_cadence: " ++ Nat.repr m.user_cadence ++ " \x7d"

/-- Modelled from the spec: pretty `Debug` rendering of a `GooseRequestMetric`. -/
def GooseRequestMetric.prettyDebug (m : GooseRequestMetric) : String :=
  "GooseRequestMetric \x7b\n    elapsed: " ++ Nat.repr m.elapsed ++
  ",\n    name: " ++ rustDebugStr m.name ++ ",\n    ...\n\x7d"

/-- Modelled from the spec: serde_json rendering of a `GooseTaskMetric`. -/
def GooseTaskMetric.json (m : GooseTaskMetric) : String :=
  "\x7b\"elapsed\":" ++ Nat.repr m.elapsed ++
  ",\"name\":" ++ rustDebugStr m.name ++
  ",\"run_time\":" ++ Nat.repr m.run_time ++
  ",\"success\":" ++ rustBool m.success ++
  ",\"task_index\":" ++ Nat.repr m.task_index ++
  ",\"taskset_index\":" ++ Nat.repr m.taskset_index ++
  ",\"user\":" ++ Nat.repr m.user ++ "\x7d"

/-- Modelled from the spec: derived `Debug` rendering of a `GooseTaskMetric`. -/
def GooseTaskMetric.rawDebug (m : GooseTaskMetric) : String :=
  "GooseTaskMetric \x7b elapsed: " ++ Nat.repr m.elapsed ++
  ", taskset_index: " ++ Nat.repr m.taskset_index ++
  ", task_index: " ++ Nat.repr m.task_index ++
  ", name: " ++ rustDebugStr m.name ++
  ", run_time: " ++ Nat.repr m.run_time ++
  ", success: " ++ rustBool m.success ++
  ", user: " ++ Nat.repr m.user ++ " \x7d"

/-- Modelled from the spec: pretty `Debug` rendering of a `GooseTaskMetric`. -/
def GooseTaskMetric.prettyDebug (m : GooseTaskMetric) : String :=
  "GooseTaskMetric \x7b\n    elapsed: " ++ Nat.repr m.elapsed ++
  ",\n    name: " ++ rustDebugStr m.name ++ ",\n    ...\n\x7d"

/-! ### Configuration (the fields of `GooseConfiguration` that src/logger.rs
reads; the structure itself is declared in src/config.rs, outside the sampled
sources, but every use below is dictated by src/logger.rs). -/

/-- The logging-related slice of `GooseConfiguration`.  An empty path string
means the corresponding log is disabled. -/
structure GooseConfiguration where
  debug_log : String
  debug_format : Option GooseLogFormat
  error_log : String
  error_format : Option GooseLogFormat
  request_log : String
  request_format : Option GooseLogFormat
  request_body : Bool
  task_log : String
  task_format : Option GooseLogFormat
  no_debug_body : Bool
  manager : Bool
deriving DecidableEq

/-- `format_message` for `GooseDebug` (src/logger.rs lines 272-290).  The
source panics via `unreachable!()` when `debug_format` is `None`; that branch
is modelled as `none`. -/
def format_message_debug (cfg : GooseConfiguration) (message : GooseDebug) :
    Option String :=
  match cfg.debug_format with
  | some GooseLogFormat.Json => some message.json
  | some GooseLogFormat.Raw => some message.rawDebug
  | some GooseLogFormat.Pretty => some message.prettyDebug
  | some GooseLogFormat.Csv => some message.prepare_csv
  | none => none

/-- `format_message` for `GooseErrorMetric` (src/logger.rs lines 305-321). -/
def format_message_error (cfg : GooseConfiguration) (message : GooseErrorMetric) :
    Option String :=
  match cfg.error_format with
  | some GooseLogFormat.Json => some message.json
  | some GooseLogFormat.Raw => some message.rawDebug
  | some GooseLogFormat.Pretty => some message.prettyDebug
  | some GooseLogFormat.Csv => some message.prepare_csv
  | none => none

/-- `format_message` for `GooseRequestMetric` (src/logger.rs lines 343-359). -/
def format_message_request (cfg : GooseConfiguration) (message : GooseRequestMetric) :
    Option String :=
  match cfg.request_format with
  | some GooseLogFormat.Json => some message.json
  | some GooseLogFormat.Raw => some message.rawDebug
  | some GooseLogFormat.Pretty => some message.prettyDebug
  | some GooseLogFormat.Csv => some message.prepare_csv
  | none => none

/-- `format_message` for `GooseTaskMetric` (src/logger.rs lines 385-401). -/
def format_message_task (cfg : GooseConfiguration) (message : GooseTaskMetric) :
    Option String :=
  match cfg.task_format with
  | some GooseLogFormat.Json => some message.json
  | some GooseLogFormat.Raw => some message.rawDebug
  | some GooseLogFormat.Pretty => some message.prettyDebug
  | some GooseLogFormat.Csv => some message.prepare_csv
  | none => none

/-! ### The logger thread (src/logger.rs lines 603-813)

The thread owns up to four buffered writers.  A writer is modelled by its
allocated capacity together with the list of chunks successfully written to
it; file-system success/failure is supplied by the `IoEnv` oracle.  Everything
the thread reports to the operator's console (`info!`, `error!`, `warn!`) is
recorded in an action trace. -/

/-- The four log streams. -/
inductive LogKind where
  | debug
  | error
  | request
  | task
deriving DecidableEq

/-- A `tokio::io::BufWriter<tokio::fs::File>`: the capacity it was allocated
with, and the chunks successfully handed to it (each chunk is a formatted
message followed by a newline). -/
structure BufWriter where
  capacity : Nat
  written : List String
deriving DecidableEq

/-- Console output of the logger thread (via the `log` crate macros). -/
inductive LogAction where
  | infoOpened (fileType : String) (path : String)
  | errorOpenFailed (fileType : String) (path : String)
  | warnWriteFailed (path : String)
  | infoFlushed (k : LogKind) (path : String)
deriving DecidableEq

/-- Oracle for the file-system effects: whether `File::create` succeeds for a
stream, whether the CSV-header write succeeds, and whether the write performed
while processing the i-th received message succeeds. -/
structure IoEnv where
  openOk : LogKind → Bool
  headerWriteOk : LogKind → Bool
  writeOk : Nat → Bool

/-- The files owned by the logger thread (`None` = stream disabled, either by
configuration or because opening the file failed). -/
structure LoggerState where
  debug_log : Option BufWriter
  error_log : Option BufWriter
  request_log : Option BufWriter
  task_log : Option BufWriter
deriving DecidableEq

/-- Stream selector on the logger state. -/
def LoggerState.getLog (st : LoggerState) : LogKind → Option BufWriter
  | LogKind.debug => st.debug_log
  | LogKind.error => st.error_log
  | LogKind.request => st.request_log
  | LogKind.task => st.task_log

/-- The messages accepted by the logger thread (src/logger.rs lines 156-161). -/
inductive GooseLog where
  | Debug (m : GooseDebug)
  | Error (m : GooseErrorMetric)
  | Request (m : GooseRequestMetric)
  | Task (m : GooseTaskMetric)
deriving DecidableEq

/-- The stream a message is routed to. -/
def GooseLog.kind : GooseLog → LogKind
  | GooseLog.Debug _ => LogKind.debug
  | GooseLog.Error _ => LogKind.error
  | GooseLog.Request _ => LogKind.request
  | GooseLog.Task _ => LogKind.task

/-- The `format_message` result for a message (`none` models the
`unreachable!()` panic taken when the stream's format option is `None`). -/
def format_of (cfg : GooseConfiguration) : GooseLog → Option String
  | GooseLog.Debug m => format_message_debug cfg m
  | GooseLog.Error m => format_message_error cfg m
  | GooseLog.Request m => format_message_request cfg m
  | GooseLog.Task m => format_message_task cfg m

/-- The configured path of a stream. -/
def logPathOf (cfg : GooseConfiguration) : LogKind → String
  | LogKind.debug => cfg.debug_log
  | LogKind.error => cfg.error_log
  | LogKind.request => cfg.request_log
  | LogKind.task => cfg.task_log

/-- The configured format of a stream. -/
def logFormatOf (cfg : GooseConfiguration) : LogKind → Option GooseLogFormat
  | LogKind.debug => cfg.debug_format
  | LogKind.error => cfg.error_format
  | LogKind.request => cfg.request_format
  | LogKind.task => cfg.task_format

/-- The `log_file_type` string `logger_main` passes to `open_log_file` for a
stream. -/
def logTypeNameOf : LogKind → String
  | LogKind.debug => "debug file"
  | LogKind.error => "error log"
  | LogKind.request => "request log"
  | LogKind.task => "task log"

/-- The CSV header `logger_main` writes for a stream. -/
def headerOf : LogKind → String
  | LogKind.debug => debug_csv_header
  | LogKind.error => error_csv_header
  | LogKind.request => requests_csv_header
  | LogKind.task => tasks_csv_header

/-- `open_log_file` (src/logger.rs lines 637-660): an empty path means the
stream is disabled; otherwise `File::create` is attempted (outcome given by
`openOk`); on success an `info!` line is printed and a `BufWriter` with the
requested capacity is returned, on failure an `error!` line is printed and the
stream is disabled (`None`) for the remainder of the test. -/
def open_log_file (openOk : Bool) (log_file_path : String) (log_file_type : String)
    (buffer_capacity : Nat) : Option BufWriter × List LogAction :=
  if log_file_path.isEmpty then (none, [])
  else if openOk then
    (some { capacity := buffer_capacity, written := [] },
     [LogAction.infoOpened log_file_type log_file_path])
  else
    (none, [LogAction.errorOpenFailed log_file_type log_file_path])

/-- `write_to_log_file` (src/logger.rs lines 663-679): writes
`formatted_message` plus a newline; on failure a `warn!` line is printed (the
source interpolates `self.debug_log` into that warning whichever stream was
being written) and the message is dropped.  The function returns `Ok(())` in
both cases. -/
def write_to_log_file (cfg : GooseConfiguration) (writeSucceeds : Bool)
    (log_file : BufWriter) (formatted_message : String) :
    BufWriter × List LogAction × Except Unit Unit :=
  if writeSucceeds then
    ({ log_file with written := log_file.written ++ [formatted_message ++ "\n"] },
     [], Except.ok ())
  else
    (log_file, [LogAction.warnWriteFailed cfg.debug_log], Except.ok ())

/-- One open-a-stream block of `logger_main`: open the file (with the stream's
configured path and the capacity chosen by `logger_main`), then, if the
stream's format is CSV and the file opened, write the CSV header. -/
def openWithHeader (cfg : GooseConfiguration) (openOk headerOk : Bool)
    (path typeName : String) (cap : Nat) (fmt : Option GooseLogFormat)
    (header : String) : Option BufWriter × List LogAction :=
  let o := open_log_file openOk path typeName cap
  if fmt = some GooseLogFormat.Csv then
    match o.1 with
    | some f =>
      let w := write_to_log_file cfg headerOk f header
      (some w.1, o.2 ++ w.2.1)
    | none => o
  else o

/-- The initialisation phase of `logger_main` (src/logger.rs lines 687-755):
opens the four streams in source order (debug, error, request, task), with the
debug buffer sized by `no_debug_body`, the request buffer sized by
`request_body`, and 64 KiB for the error and task buffers; writes the CSV
header to each stream whose format is CSV. -/
def initLogger (cfg : GooseConfiguration) (env : IoEnv) :
    LoggerState × List LogAction :=
  let d := openWithHeader cfg (env.openOk LogKind.debug) (env.headerWriteOk LogKind.debug)
    cfg.debug_log "debug file"
    (if cfg.no_debug_body then 64 * 1024 else 8 * 1024 * 1024)
    cfg.debug_format debug_csv_header
  let e := openWithHeader cfg (env.openOk LogKind.error) (env.headerWriteOk LogKind.error)
    cfg.error_log "error log" (64 * 1024) cfg.error_format error_csv_header
  let r := openWithHeader cfg (env.openOk LogKind.request) (env.headerWriteOk LogKind.request)
    cfg.request_log "request log"
    (if cfg.request_body then 8 * 1024 * 1024 else 64 * 1024)
    cfg.request_format requests_csv_header
  let t := openWithHeader cfg (env.openOk LogKind.task) (env.headerWriteOk LogKind.task)
    cfg.task_log "task log" (64 * 1024) cfg.task_format tasks_csv_header
  ({ debug_log := d.1, error_log := e.1, request_log := r.1, task_log := t.1 },
   d.2 ++ e.2 ++ r.2 ++ t.2)

/-- Processing of one received `Some(message)` (src/logger.rs lines 759-781):
the message is formatted with the `format_message` implementation of its type
(`none` = the `unreachable!()` panic, which aborts the thread), then written to
the matching stream if that stream is enabled; a disabled stream discards the
message. -/
def processLog (cfg : GooseConfiguration) (env : IoEnv) (i : Nat)
    (st : LoggerState) (message : GooseLog) :
    Option (LoggerState × List LogAction) :=
  match message with
  | GooseLog.Debug debug_message =>
    match format_message_debug cfg debug_message with
    | none => none
    | some formatted_message =>
      match st.debug_log with
      | none => some (st, [])
      | some log_file =>
        let w := write_to_log_file cfg (env.writeOk i) log_file formatted_message
        some ({ st with debug_log := some w.1 }, w.2.1)
  | GooseLog.Error error_message =>
    match format_message_error cfg error_message with
    | none => none
    | some formatted_message =>
      match st.error_log with
      | none => some (st, [])
      | some log_file =>
        let w := write_to_log_file cfg (env.writeOk i) log_file formatted_message
        some ({ st with error_log := some w.1 }, w.2.1)
  | GooseLog.Request request_message =>
    match format_message_request cfg request_message with
    | none => none
    | some formatted_message =>
      match st.request_log with
      | none => some (st, [])
      | some log_file =>
        let w := write_to_log_file cfg (env.writeOk i) log_file formatted_message
        some ({ st with request_log := some w.1 }, w.2.1)
  | GooseLog.Task task_message =>
    match format_message_task cfg task_message with
    | none => none
    | some formatted_message =>
      match st.task_log with
      | none => some (st, [])
      | some log_file =>
        let w := write_to_log_file cfg (env.writeOk i) log_file formatted_message
        some ({ st with task_log := some w.1 }, w.2.1)

/-- The receive loop of `logger_main`: `recv` until the channel is closed (the
list is exhausted) or a `None` message arrives, processing each `Some`
message.  `none` as the overall result models the thread panicking in
`format_message`. -/
def runLoop (cfg : GooseConfiguration) (env : IoEnv) :
    Nat → LoggerState → List (Option GooseLog) →
    Option (LoggerState × List LogAction)
  | _, st, [] => some (st, [])
  | _, st, none :: _ => some (st, [])
  | i, st, some message :: rest =>
    match processLog cfg env i st message with
    | none => none
    | some (st', acts) =>
      match runLoop cfg env (i + 1) st' rest with
      | none => none
      | some (stF, actsF) => some (stF, acts ++ actsF)

/-- The shutdown phase of `logger_main` (src/logger.rs lines 788-810): flush
each enabled stream, in the fixed source order debug, request, task, error,
printing an `info!` line for each. -/
def flushActions (cfg : GooseConfiguration) (st : LoggerState) : List LogAction :=
  (match st.debug_log with
   | some _ => [LogAction.infoFlushed LogKind.debug cfg.debug_log]
   | none => []) ++
  (match st.request_log with
   | some _ => [LogAction.infoFlushed LogKind.request cfg.request_log]
   | none => []) ++
  (match st.task_log with
   | some _ => [LogAction.infoFlushed LogKind.task cfg.task_log]
   | none => []) ++
  (match st.error_log with
   | some _ => [LogAction.infoFlushed LogKind.error cfg.error_log]
   | none => [])

/-- `logger_main` (src/logger.rs lines 683-813): initialisation, receive loop,
flush, and the final `Ok(())`.  The result is the final state of the four
files, the console trace, and the thread's return value; `none` models a
panic inside the thread. -/
def logger_main (cfg : GooseConfiguration) (env : IoEnv)
    (messages : List (Option GooseLog)) :
    Option (LoggerState × List LogAction × Except GooseError Unit) :=
  let init := initLogger cfg env
  match runLoop cfg env 0 init.1 messages with
  | none => none
  | some (st, acts) =>
    some (st, init.2 ++ acts ++ flushActions cfg st, Except.ok ())

/-! ### Logger configuration (src/logger.rs lines 420-634)

`configure_loggers` resolves each logging option through the
`GooseConfigure::get_value` helper.  `GooseValue` and `get_value` live in
src/config.rs, outside the sampled sources. -/

/-- A candidate value for an option, as passed to `get_value`. -/
structure GooseValue (α : Type) where
  value : Option α
  filter : Bool
  message : String

/-- Modelled from the spec: `GooseConfigure::get_value` (src/config.rs, not
among the sampled sources).  Spec §6: "Precedence: CLI > declared default >
built-in default" — the helper returns the first candidate in the list whose
`filter` is false, and `None` when every candidate is filtered out.  This is
exactly the precedence order in which `configure_loggers` lists its
candidates (each is commented "Use --x if set" / "Otherwise use GooseDefault
if set" / "Otherwise default to ..."). -/
def get_value {α : Type} : List (GooseValue α) → Option α
  | [] => none
  | v :: rest => if v.filter then get_value rest else v.value

/-- The logging-related slice of `GooseDefaults` (declared defaults set by the
test author through `set_default`). -/
structure GooseDefaults where
  debug_log : Option String
  debug_format : Option GooseLogFormat
  error_log : Option String
  error_format : Option GooseLogFormat
  request_log : Option String
  request_format : Option GooseLogFormat
  request_body : Option Bool
  task_log : Option String
  task_format : Option GooseLogFormat

/-- `configure_loggers` (src/logger.rs lines 423-601): resolves the four log
paths (CLI value if non-empty, else declared default, else disabled), the four
formats (CLI value if set, else declared default when not a manager, else
`Json` when not a manager), and `request_body`. -/
def configure_loggers (cfg : GooseConfiguration) (defaults : GooseDefaults) :
    GooseConfiguration :=
  let cfg := { cfg with
    debug_log := (get_value
      [{ value := some cfg.debug_log, filter := cfg.debug_log.isEmpty, message := "" },
       { value := defaults.debug_log, filter := defaults.debug_log.isNone, message := "" }]).getD "" }
  let cfg := { cfg with
    debug_format := get_value
      [{ value := cfg.debug_format, filter := cfg.debug_format.isNone, message := "" },
       { value := defaults.debug_format,
         filter := defaults.debug_format.isNone || cfg.manager, message := "" },
       { value := some GooseLogFormat.Json, filter := cfg.manager, message := "" }] }
  let cfg := { cfg with
    error_log := (get_value
      [{ value := some cfg.error_log, filter := cfg.error_log.isEmpty, message := "" },
       { value := defaults.error_log, filter := defaults.error_log.isNone, message := "" }]).getD "" }
  let cfg := { cfg with
    error_format := get_value
      [{ value := cfg.error_format, filter := cfg.error_format.isNone, message := "" },
       { value := defaults.error_format,
         filter := defaults.error_format.isNone || cfg.manager, message := "" },
       { value := some GooseLogFormat.Json, filter := cfg.manager, message := "" }] }
  let cfg := { cfg with
    request_log := (get_value
      [{ value := some cfg.request_log, filter := cfg.request_log.isEmpty, message := "" },
       { value := defaults.request_log, filter := defaults.request_log.isNone, message := "" }]).getD "" }
  let cfg := { cfg with
    request_format := get_value
      [{ value := cfg.request_format, filter := cfg.request_format.isNone, message := "" },
       { value := defaults.request_format,
         filter := defaults.request_format.isNone || cfg.manager, message := "" },
       { value := some GooseLogFormat.Json, filter := cfg.manager, message := "" }] }
  let cfg := { cfg with
    request_body := (get_value
      [{ value := some cfg.request_body, filter := !cfg.request_body, message := "request_body" },
       { value := defaults.request_body,
         filter := defaults.request_body.isNone || cfg.manager, message := "request_body" }]).getD false }
  let cfg := { cfg with
    task_log := (get_value
      [{ value := some cfg.task_log, filter := cfg.task_log.isEmpty, message := "" },
       { value := defaults.task_log, filter := defaults.task_log.isNone, message := "" }]).getD "" }
  let cfg := { cfg with
    task_format := get_value
      [{ value := cfg.task_format, filter := cfg.task_format.isNone, message := "" },
       { value := defaults.task_format,
         filter := defaults.task_format.isNone || cfg.manager, message := "" },
       { value := some GooseLogFormat.Json, filter := cfg.manager, message := "" }] }
  cfg

/-- `setup_loggers` (src/logger.rs lines 604-634): in manager mode no logger
thread is started and the configuration is left untouched; otherwise the
logger configuration is resolved, and a logger thread is spawned exactly when
at least one of the four logs is enabled.  The returned `Bool` is whether a
thread was spawned (i.e. whether the source returns `Some` handles). -/
def setup_loggers (cfg : GooseConfiguration) (defaults : GooseDefaults) :
    GooseConfiguration × Bool :=
  if cfg.manager then (cfg, false)
  else
    let cfg := configure_loggers cfg defaults
    if cfg.debug_log.isEmpty && cfg.request_log.isEmpty && cfg.task_log.isEmpty
        && cfg.error_log.isEmpty then
      (cfg, false)
    else
      (cfg, true)

/-! ### The metrics aggregator (claim C9)

src/metrics.rs is not among the sampled sources; the aggregation of request
events is modelled from the spec. -/

/-- Modelled from the spec: the per-endpoint counters of the Metrics
Aggregator (spec §4.5: "Maintains per-endpoint counters: `counter`,
`success_count`, `fail_count`"). -/
structure GooseRequestAggregate where
  counter : Nat
  success_count : Nat
  fail_count : Nat
deriving DecidableEq

/-- Modelled from the spec: applying one request outcome record (endpoint
name, success flag) to the aggregator (spec §4.5: the aggregator "receives
request/task outcome records" and maintains the per-endpoint counters; each
record increments `counter` and exactly one of `success_count`/`fail_count`). -/
def applyRequestEvent (m : String → GooseRequestAggregate) (e : String × Bool) :
    String → GooseRequestAggregate :=
  fun name =>
    if name = e.1 then
      if e.2 then
        { m name with counter := (m name).counter + 1,
                      success_count := (m name).success_count + 1 }
      else
        { m name with counter := (m name).counter + 1,
                      fail_count := (m name).fail_count + 1 }
    else m name

/-- Modelled from the spec: the aggregator state after a load test that
produced the given stream of request outcome records, starting from all-zero
counters. -/
def aggregateRequests (events : List (String × Bool)) :
    String → GooseRequestAggregate :=
  events.foldl applyRequestEvent
    (fun _ => { counter := 0, success_count := 0, fail_count := 0 })

/-! ### Naive comma-splitting of a CSV row

Quoting in the produced rows never escapes anything (see `quoteUnescaped`), so
field boundaries of a row are exactly its commas; `splitFields` recovers the
fields of a row whose string fields are comma-free. -/

/-- Split a character list at every comma (commas inside quotes are NOT
special, faithfully to the unescaped quoting the logger performs). -/
def splitFields : List Char → List (List Char)
  | [] => [[]]
  | c :: cs =>
    if c = ',' then [] :: splitFields cs
    else
      match splitFields cs with
      | f :: fs => (c :: f) :: fs
      | [] => [[c]]

theorem splitFields_ne_nil (l : List Char) : splitFields l ≠ [] := by
  induction l with
  | nil => simp [splitFields]
  | cons c cs ih =>
    simp only [splitFields]
    split
    · simp
    · cases h : splitFields cs with
      | nil => simp
      | cons f fs => simp

theorem splitFields_of_not_mem_comma (l : List Char) (h : ',' ∉ l) :
    splitFields l = [l] := by
  induction l with
  | nil => rfl
  | cons c cs ih =>
    have hc : c ≠ ',' := fun hc => h (hc ▸ List.mem_cons_self c cs)
    have hcs : ',' ∉ cs := fun hm => h (List.mem_cons_of_mem c hm)
    simp [splitFields, hc, ih hcs]

theorem splitFields_append_comma (xs ys : List Char) (h : ',' ∉ xs) :
    splitFields (xs ++ ',' :: ys) = xs :: splitFields ys := by
  induction xs with
  | nil => simp [splitFields]
  | cons c cs ih =>
    have hc : c ≠ ',' := fun hc => h (hc ▸ List.mem_cons_self c cs)
    have hcs : ',' ∉ cs := fun hm => h (List.mem_cons_of_mem c hm)
    simp only [List.cons_append, splitFields, if_neg hc, List.append_eq]
    rw [ih hcs]

theorem splitFields_intercalate (fs : List (List Char)) (hne : fs ≠ [])
    (h : ∀ f ∈ fs, ',' ∉ f) :
    splitFields (List.intercalate [','] fs) = fs := by
  induction fs with
  | nil => exact absurd rfl hne
  | cons f rest ih =>
    cases rest with
    | nil =>
      have h1 : List.intercalate [','] [f] = f := by
        simp [List.intercalate]
      rw [h1]
      exact splitFields_of_not_mem_comma f (h f (List.mem_cons_self f []))
    | cons g rest' =>
      have hstep : List.intercalate [','] (f :: g :: rest') =
          f ++ ',' :: List.intercalate [','] (g :: rest') := by
        simp [List.intercalate, List.intersperse]
      rw [hstep, splitFields_append_comma f _ (h f (List.mem_cons_self f _)),
        ih (by simp) (fun x hx => h x (List.mem_cons_of_mem f hx))]

theorem digitChar_of_decimal_digit_ne_comma (m : Nat) (h : m < 10) :
    Nat.digitChar m ≠ ',' := by
  interval_cases m <;> decide

theorem toDigitsCore_base_ten_not_comma :
    ∀ (fuel n : Nat) (ds : List Char), ',' ∉ ds →
      ',' ∉ Nat.toDigitsCore 10 fuel n ds := by
  intro fuel
  induction fuel with
  | zero => intro n ds h; simpa [Nat.toDigitsCore] using h
  | succ f ih =>
    intro n ds h
    have hd : Nat.digitChar (n % 10) ≠ ',' :=
      digitChar_of_decimal_digit_ne_comma (n % 10) (Nat.mod_lt n (by omega))
    simp only [Nat.toDigitsCore]
    split
    · intro hmem
      rcases List.mem_cons.mp hmem with h1 | h1
      · exact hd h1.symm
      · exact h h1
    · refine ih _ _ ?_
      intro hmem
      rcases List.mem_cons.mp hmem with h1 | h1
      · exact hd h1.symm
      · exact h h1

/-- Decimal renderings of numbers contain no comma. -/
theorem natRepr_not_comma (n : Nat) : ',' ∉ (Nat.repr n).data :=
  toDigitsCore_base_ten_not_comma (n + 1) n [] (by simp)

/-- Boolean renderings contain no comma. -/
theorem rustBool_not_comma (b : Bool) : ',' ∉ (rustBool b).data := by
  cases b <;> decide

theorem quoteUnescaped_data (s : String) :
    (quoteUnescaped s).data = '"' :: (s.data ++ ['"']) := by
  simp [quoteUnescaped, String.data_append]

theorem quoteUnescaped_not_comma (s : String) (h : ',' ∉ s.data) :
    ',' ∉ (quoteUnescaped s).data := by
  rw [quoteUnescaped_data]
  simp [h]

theorem comma_string_data : ("," : String).data = [','] := rfl

theorem request_prepare_csv_data (r : GooseRequestMetric) :
    (GooseRequestMetric.prepare_csv r).data =
      List.intercalate [',']
        [(Nat.repr r.elapsed).data,
         (quoteUnescaped r.raw).data,
         (quoteUnescaped r.name).data,
         (quoteUnescaped r.final_url).data,
         (rustBool r.redirected).data,
         (Nat.repr r.response_time).data,
         (Nat.repr r.status_code).data,
         (rustBool r.success).data,
         (rustBool r.update).data,
         (Nat.repr r.user).data,
         r.error.data,
         (Nat.repr r.coordinated_omission_elapsed).data,
         (Nat.repr r.user_cadence).data] := by
  simp [GooseRequestMetric.prepare_csv, String.data_append, List.intercalate,
    List.intersperse, comma_string_data]

theorem error_prepare_csv_data (e : GooseErrorMetric) :
    (GooseErrorMetric.prepare_csv e).data =
      List.intercalate [',']
        [(Nat.repr e.elapsed).data,
         (quoteUnescaped e.raw).data,
         (quoteUnescaped e.name).data,
         (quoteUnescaped e.final_url).data,
         (rustBool e.redirected).data,
         (Nat.repr e.response_time).data,
         (Nat.repr e.status_code).data,
         (Nat.repr e.user).data,
         (quoteUnescaped e.error).data] := by
  simp [GooseErrorMetric.prepare_csv, String.data_append, List.intercalate,
    List.intersperse, comma_string_data]

theorem task_prepare_csv_data (t : GooseTaskMetric) :
    (GooseTaskMetric.prepare_csv t).data =
      List.intercalate [',']
        [(Nat.repr t.elapsed).data,
         (Nat.repr t.taskset_index).data,
         (Nat.repr t.task_index).data,
         (quoteUnescaped t.name).data,
         (Nat.repr t.run_time).data,
         (rustBool t.success).data,
         (Nat.repr t.user).data] := by
  simp [GooseTaskMetric.prepare_csv, String.data_append, List.intercalate,
    List.intersperse, comma_string_data]

theorem debug_prepare_csv_data (d : GooseDebug) :
    (GooseDebug.prepare_csv d).data =
      List.intercalate [',']
        [(quoteUnescaped d.tag).data,
         (quoteUnescaped (rustDebugOption d.request)).data,
         (quoteUnescaped (rustDebugOption d.header)).data,
         (quoteUnescaped (rustDebugOption d.body)).data] := by
  simp [GooseDebug.prepare_csv, String.data_append, List.intercalate,
    List.intersperse, comma_string_data]

/-- The quoting discipline the spec claims for CSV string fields: double-quote
the value, escaping inner double quotes by doubling them. -/
def csvQuoteDoubled (s : String) : String :=
  "\"" ++ String.mk (s.data.flatMap fun c =>
    if c = '"' then ['"', '"'] else [c]) ++ "\""

/-- A concrete request metric used to evaluate the model on closed inputs. -/
def exRequestMetric : GooseRequestMetric :=
  { elapsed := 0, raw := "raw", name := "n", final_url := "u",
    redirected := false, response_time := 1, status_code := 200,
    success := true, update := false, user := 3, error := "e",
    coordinated_omission_elapsed := 0, user_cadence := 0 }

/-- A concrete error metric used to evaluate the model on closed inputs. -/
def exErrorMetric : GooseErrorMetric :=
  { elapsed := 2, raw := "raw", name := "n", final_url := "u",
    redirected := true, response_time := 5, status_code := 500,
    user := 1, error := "boom" }

/-- A concrete task metric used to evaluate the model on closed inputs. -/
def exTaskMetric : GooseTaskMetric :=
  { elapsed := 7, taskset_index := 0, task_index := 1, name := "t",
    run_time := 4, success := false, user := 2 }

/-- A concrete debug record used to evaluate the model on closed inputs. -/
def exDebugPlain : GooseDebug :=
  { tag := "tag", request := none, header := some "H", body := none }

/-- A debug record whose tag contains an inner double quote. -/
def exDebugQuoted : GooseDebug :=
  { tag := "a\"b", request := none, header := none, body := none }

/-- C1, counterexample.  The claim that in every CSV row the string fields
`name`, `url`, `error`, `tag`, `body` are double-quoted with inner double
quotes escaped by doubling is false on the code: (a) in the request-log row
the `error` string field is rendered completely unquoted (11th field below),
and (b) `prepare_csv` never doubles inner double quotes — a debug record
whose tag is `a"b` yields the field `"a"b"`, not the claimed `"a""b"`. -/
theorem C1_error_field_unquoted_and_quotes_undoubled :
    ((splitFields (GooseRequestMetric.prepare_csv exRequestMetric).data)[10]? =
        some "e".data
      ∧ "e".data ≠ (csvQuoteDoubled "e").data)
    ∧ ((splitFields (GooseDebug.prepare_csv exDebugQuoted).data)[0]? =
        some "\"a\"b\"".data
      ∧ "\"a\"b\"".data ≠ (csvQuoteDoubled "a\"b").data) := by
  decide

/-- C1 (amended).  CSV rows produced by the `prepare_csv` implementations,
characterised by naive comma-splitting, for rows whose string fields contain
no comma: numeric and boolean fields are rendered unquoted; `raw`, `name` and
`final_url` are double-quoted in request and error rows, `error` is
double-quoted in the error row but UNQUOTED in the request row, `name` is
double-quoted in the task row, and all four debug fields are double-quoted;
no field ever has inner double quotes escaped (the quotes delimiting a field
are adjoined verbatim around the rendered value). -/
theorem C1_csv_row_field_rendering
    (r : GooseRequestMetric) (e : GooseErrorMetric) (t : GooseTaskMetric)
    (d : GooseDebug)
    (hr1 : ',' ∉ r.raw.data) (hr2 : ',' ∉ r.name.data)
    (hr3 : ',' ∉ r.final_url.data) (hr4 : ',' ∉ r.error.data)
    (he1 : ',' ∉ e.raw.data) (he2 : ',' ∉ e.name.data)
    (he3 : ',' ∉ e.final_url.data) (he4 : ',' ∉ e.error.data)
    (ht1 : ',' ∉ t.name.data)
    (hd1 : ',' ∉ d.tag.data) (hd2 : ',' ∉ (rustDebugOption d.request).data)
    (hd3 : ',' ∉ (rustDebugOption d.header).data)
    (hd4 : ',' ∉ (rustDebugOption d.body).data) :
    splitFields (GooseRequestMetric.prepare_csv r).data =
      [(Nat.repr r.elapsed).data,
       '"' :: (r.raw.data ++ ['"']),
       '"' :: (r.name.data ++ ['"']),
       '"' :: (r.final_url.data ++ ['"']),
       (rustBool r.redirected).data,
       (Nat.repr r.response_time).data,
       (Nat.repr r.status_code).data,
       (rustBool r.success).data,
       (rustBool r.update).data,
       (Nat.repr r.user).data,
       r.error.data,
       (Nat.repr r.coordinated_omission_elapsed).data,
       (Nat.repr r.user_cadence).data] ∧
    splitFields (GooseErrorMetric.prepare_csv e).data =
      [(Nat.repr e.elapsed).data,
       '"' :: (e.raw.data ++ ['"']),
       '"' :: (e.name.data ++ ['"']),
       '"' :: (e.final_url.data ++ ['"']),
       (rustBool e.redirected).data,
       (Nat.repr e.response_time).data,
       (Nat.repr e.status_code).data,
       (Nat.repr e.user).data,
       '"' :: (e.error.data ++ ['"'])] ∧
    splitFields (GooseTaskMetric.prepare_csv t).data =
      [(Nat.repr t.elapsed).data,
       (Nat.repr t.taskset_index).data,
       (Nat.repr t.task_index).data,
       '"' :: (t.name.data ++ ['"']),
       (Nat.repr t.run_time).data,
       (rustBool t.success).data,
       (Nat.repr t.user).data] ∧
    splitFields (GooseDebug.prepare_csv d).data =
      ['"' :: (d.tag.data ++ ['"']),
       '"' :: ((rustDebugOption d.request).data ++ ['"']),
       '"' :: ((rustDebugOption d.header).data ++ ['"']),
       '"' :: ((rustDebugOption d.body).data ++ ['"'])] := by
  refine ⟨?_, ?_, ?_, ?_⟩
  · rw [request_prepare_csv_data, splitFields_intercalate _ (by simp) ?_]
    · simp [quoteUnescaped_data]
    · intro f hf
      simp only [List.mem_cons, List.not_mem_nil, or_false] at hf
      rcases hf with rfl|rfl|rfl|rfl|rfl|rfl|rfl|rfl|rfl|rfl|rfl|rfl|rfl <;>
        first
        | exact natRepr_not_comma _
        | exact rustBool_not_comma _
        | (apply quoteUnescaped_not_comma; assumption)
        | assumption
  · rw [error_prepare_csv_data, splitFields_intercalate _ (by simp) ?_]
    · simp [quoteUnescaped_data]
    · intro f hf
      simp only [List.mem_cons, List.not_mem_nil, or_false] at hf
      rcases hf with rfl|rfl|rfl|rfl|rfl|rfl|rfl|rfl|rfl <;>
        first
        | exact natRepr_not_comma _
        | exact rustBool_not_comma _
        | (apply quoteUnescaped_not_comma; assumption)
        | assumption
  · rw [task_prepare_csv_data, splitFields_intercalate _ (by simp) ?_]
    · simp [quoteUnescaped_data]
    · intro f hf
      simp only [List.mem_cons, List.not_mem_nil, or_false] at hf
      rcases hf with rfl|rfl|rfl|rfl|rfl|rfl|rfl <;>
        first
        | exact natRepr_not_comma _
        | exact rustBool_not_comma _
        | (apply quoteUnescaped_not_comma; assumption)
        | assumption
  · rw [debug_prepare_csv_data, splitFields_intercalate _ (by simp) ?_]
    · simp [quoteUnescaped_data]
    · intro f hf
      simp only [List.mem_cons, List.not_mem_nil, or_false] at hf
      rcases hf with rfl|rfl|rfl|rfl <;>
        (apply quoteUnescaped_not_comma; assumption)

/-- C1, witness: the amended row characterisation evaluated at concrete
metrics. -/
theorem C1_csv_row_field_rendering_witness :
    splitFields (GooseRequestMetric.prepare_csv exRequestMetric).data =
      [(Nat.repr exRequestMetric.elapsed).data,
       '"' :: (exRequestMetric.raw.data ++ ['"']),
       '"' :: (exRequestMetric.name.data ++ ['"']),
       '"' :: (exRequestMetric.final_url.data ++ ['"']),
       (rustBool exRequestMetric.redirected).data,
       (Nat.repr exRequestMetric.response_time).data,
       (Nat.repr exRequestMetric.status_code).data,
       (rustBool exRequestMetric.success).data,
       (rustBool exRequestMetric.update).data,
       (Nat.repr exRequestMetric.user).data,
       exRequestMetric.error.data,
       (Nat.repr exRequestMetric.coordinated_omission_elapsed).data,
       (Nat.repr exRequestMetric.user_cadence).data] ∧
    splitFields (GooseErrorMetric.prepare_csv exErrorMetric).data =
      [(Nat.repr exErrorMetric.elapsed).data,
       '"' :: (exErrorMetric.raw.data ++ ['"']),
       '"' :: (exErrorMetric.name.data ++ ['"']),
       '"' :: (exErrorMetric.final_url.data ++ ['"']),
       (rustBool exErrorMetric.redirected).data,
       (Nat.repr exErrorMetric.response_time).data,
       (Nat.repr exErrorMetric.status_code).data,
       (Nat.repr exErrorMetric.user).data,
       '"' :: (exErrorMetric.error.data ++ ['"'])] ∧
    splitFields (GooseTaskMetric.prepare_csv exTaskMetric).data =
      [(Nat.repr exTaskMetric.elapsed).data,
       (Nat.repr exTaskMetric.taskset_index).data,
       (Nat.repr exTaskMetric.task_index).data,
       '"' :: (exTaskMetric.name.data ++ ['"']),
       (Nat.repr exTaskMetric.run_time).data,
       (rustBool exTaskMetric.success).data,
       (Nat.repr exTaskMetric.user).data] ∧
    splitFields (GooseDebug.prepare_csv exDebugPlain).data =
      ['"' :: (exDebugPlain.tag.data ++ ['"']),
       '"' :: ((rustDebugOption exDebugPlain.request).data ++ ['"']),
       '"' :: ((rustDebugOption exDebugPlain.header).data ++ ['"']),
       '"' :: ((rustDebugOption exDebugPlain.body).data ++ ['"'])] :=
  C1_csv_row_field_rendering exRequestMetric exErrorMetric exTaskMetric
    exDebugPlain (by decide) (by decide) (by decide) (by decide) (by decide)
    (by decide) (by decide) (by decide) (by decide) (by decide) (by decide)
    (by decide) (by decide)

/-- C8, counterexample.  `GooseLogFormat::from_str` does not reject every
input other than the four documented format names: the undocumented
abbreviation `jsn` (matched by the `(?i)^(json|jsn)$` pattern) parses
successfully to `Json`. -/
theorem C8_jsn_accepted :
    GooseLogFormat.fromStr "jsn" = Except.ok GooseLogFormat.Json
    ∧ "jsn" ∉ ["csv", "json", "raw", "pretty"] := by
  decide

/-- C8 (amended).  `GooseLogFormat::from_str` returns `Ok(Csv)` exactly for
inputs whose ASCII-lowercasing is `csv`, `Ok(Json)` exactly for lowercasing
`json` or the undocumented abbreviation `jsn`, `Ok(Raw)` for lowercasing
`raw`, `Ok(Pretty)` for lowercasing `pretty`, and `Err(InvalidOption)` for
every other input. -/
theorem C8_from_str_classification (s : String) :
    (asciiLower s = "csv" → GooseLogFormat.fromStr s = Except.ok GooseLogFormat.Csv) ∧
    (asciiLower s = "json" ∨ asciiLower s = "jsn" →
      GooseLogFormat.fromStr s = Except.ok GooseLogFormat.Json) ∧
    (asciiLower s = "raw" → GooseLogFormat.fromStr s = Except.ok GooseLogFormat.Raw) ∧
    (asciiLower s = "pretty" → GooseLogFormat.fromStr s = Except.ok GooseLogFormat.Pretty) ∧
    (asciiLower s ∉ ["csv", "json", "jsn", "raw", "pretty"] →
      GooseLogFormat.fromStr s = Except.error (GooseError.InvalidOption
        ("GooseLogFormat::" ++ rustDebugStr s) s
        "Invalid log_format, expected: csv, json, or raw")) := by
  refine ⟨?_, ?_, ?_, ?_, ?_⟩ <;> intro h
  · simp [GooseLogFormat.fromStr, h]
  · rcases h with h | h <;> simp [GooseLogFormat.fromStr, h]
  · have h1 : asciiLower s ≠ "csv" := by rw [h]; decide
    have h2 : ¬(asciiLower s = "json" ∨ asciiLower s = "jsn") := by
      rw [h]; decide
    simp [GooseLogFormat.fromStr, h, h1, h2]
  · have h1 : asciiLower s ≠ "csv" := by rw [h]; decide
    have h2 : ¬(asciiLower s = "json" ∨ asciiLower s = "jsn") := by
      rw [h]; decide
    have h3 : asciiLower s ≠ "raw" := by rw [h]; decide
    simp [GooseLogFormat.fromStr, h, h1, h2, h3]
  · simp only [List.mem_cons, List.not_mem_nil, or_false, not_or] at h
    obtain ⟨h1, h2, h3, h4, h5⟩ := h
    simp [GooseLogFormat.fromStr, h1, h2, h3, h4, h5]

/-- C8, witness: the amended classification evaluated at the concrete inputs
`Pretty` (accepted case-insensitively) and `yaml` (rejected). -/
theorem C8_from_str_classification_witness :
    GooseLogFormat.fromStr "Pretty" = Except.ok GooseLogFormat.Pretty ∧
    GooseLogFormat.fromStr "yaml" = Except.error (GooseError.InvalidOption
      ("GooseLogFormat::" ++ rustDebugStr "yaml") "yaml"
      "Invalid log_format, expected: csv, json, or raw") :=
  ⟨(C8_from_str_classification "Pretty").2.2.2.1 (by decide),
   (C8_from_str_classification "yaml").2.2.2.2 (by decide)⟩

/-! ### Initialisation lemmas -/

theorem write_to_log_file_capacity (cfg : GooseConfiguration) (ok : Bool)
    (f : BufWriter) (m : String) :
    ((write_to_log_file cfg ok f m).1).capacity = f.capacity := by
  unfold write_to_log_file
  split <;> rfl

theorem open_log_file_capacity (o : Bool) (p t : String) (cap : Nat)
    (f : BufWriter) (h : (open_log_file o p t cap).1 = some f) :
    f.capacity = cap ∧ f.written = [] := by
  unfold open_log_file at h
  split at h
  · simp at h
  · split at h
    · simp only [Option.some.injEq] at h
      rw [← h]
      exact ⟨rfl, rfl⟩
    · simp at h

theorem openWithHeader_capacity (cfg : GooseConfiguration) (o hOk : Bool)
    (p t : String) (cap : Nat) (fmt : Option GooseLogFormat) (hd : String)
    (f : BufWriter) (h : (openWithHeader cfg o hOk p t cap fmt hd).1 = some f) :
    f.capacity = cap := by
  simp only [openWithHeader] at h
  split at h
  · cases ho : (open_log_file o p t cap).1 with
    | none => rw [ho] at h; simp [ho] at h
    | some f0 =>
      rw [ho] at h
      simp only [Option.some.injEq] at h
      rw [← h, write_to_log_file_capacity]
      exact (open_log_file_capacity o p t cap f0 ho).1
  · exact (open_log_file_capacity o p t cap f h).1

theorem openWithHeader_csv_ok (cfg : GooseConfiguration) (p t : String)
    (cap : Nat) (hd : String) (hp : p ≠ "") :
    openWithHeader cfg true true p t cap (some GooseLogFormat.Csv) hd =
      (some { capacity := cap, written := [hd ++ "\n"] },
       [LogAction.infoOpened t p]) := by
  have hp' : p.isEmpty = false := by
    rw [Bool.eq_false_iff]
    intro hh
    exact hp ((String.isEmpty_iff p).mp hh)
  simp [openWithHeader, open_log_file, write_to_log_file, hp']

/-- A configuration with all four logs enabled in CSV format. -/
def cfgAllCsv : GooseConfiguration :=
  { debug_log := "d.log", debug_format := some GooseLogFormat.Csv,
    error_log := "e.log", error_format := some GooseLogFormat.Csv,
    request_log := "r.log", request_format := some GooseLogFormat.Csv,
    request_body := false,
    task_log := "t.log", task_format := some GooseLogFormat.Csv,
    no_debug_body := true, manager := false }

/-- The oracle where every file-system operation succeeds. -/
def envAllOk : IoEnv :=
  { openOk := fun _ => true, headerWriteOk := fun _ => true,
    writeOk := fun _ => true }

/-- C6.  The four CSV headers are exactly the documented strings, they contain
no double quote, and for every stream configured with CSV format whose file
opens successfully (and whose header write succeeds) the stream's buffer
after initialisation contains exactly the header line. -/
theorem C6_csv_headers (cfg : GooseConfiguration) (env : IoEnv) (k : LogKind)
    (hfmt : logFormatOf cfg k = some GooseLogFormat.Csv)
    (hpath : logPathOf cfg k ≠ "")
    (hopen : env.openOk k = true)
    (hhdr : env.headerWriteOk k = true) :
    requests_csv_header =
      "elapsed,raw,name,final_url,redirected,response_time,status_code,success,update,user,error,coordinated_omission_elapsed,user_cadence" ∧
    tasks_csv_header = "elapsed,taskset_index,task_index,name,run_time,success,user" ∧
    error_csv_header = "elapsed,raw,name,final_url,redirected,response_time,status_code,user,error" ∧
    debug_csv_header = "tag,request,header,body" ∧
    '"' ∉ requests_csv_header.data ∧ '"' ∉ tasks_csv_header.data ∧
    '"' ∉ error_csv_header.data ∧ '"' ∉ debug_csv_header.data ∧
    ((initLogger cfg env).1.getLog k).map BufWriter.written =
      some [headerOf k ++ "\n"] := by
  refine ⟨by decide, by decide, by decide, by decide,
    by decide, by decide, by decide, by decide, ?_⟩
  cases k <;>
    simp only [logFormatOf, logPathOf] at hfmt hpath <;>
    simp only [initLogger, LoggerState.getLog, headerOf] <;>
    rw [hopen, hhdr, hfmt, openWithHeader_csv_ok cfg _ _ _ _ hpath] <;>
    rfl

/-- C6, witness: the request log of a fully-CSV configuration holds exactly
the request header line after initialisation. -/
theorem C6_csv_headers_witness :
    requests_csv_header =
      "elapsed,raw,name,final_url,redirected,response_time,status_code,success,update,user,error,coordinated_omission_elapsed,user_cadence" ∧
    tasks_csv_header = "elapsed,taskset_index,task_index,name,run_time,success,user" ∧
    error_csv_header = "elapsed,raw,name,final_url,redirected,response_time,status_code,user,error" ∧
    debug_csv_header = "tag,request,header,body" ∧
    '"' ∉ requests_csv_header.data ∧ '"' ∉ tasks_csv_header.data ∧
    '"' ∉ error_csv_header.data ∧ '"' ∉ debug_csv_header.data ∧
    ((initLogger cfgAllCsv envAllOk).1.getLog LogKind.request).map BufWriter.written =
      some [headerOf LogKind.request ++ "\n"] :=
  C6_csv_headers cfgAllCsv envAllOk LogKind.request (by decide) (by decide)
    rfl rfl

/-- C7.  Buffer capacities chosen by `logger_main`: the debug log gets an
8 MiB buffer unless `no_debug_body` is set (then 64 KiB), the request log gets
8 MiB exactly when `request_body` is set (else 64 KiB), and the error and task
logs always get 64 KiB. -/
theorem C7_buffer_capacities (cfg : GooseConfiguration) (env : IoEnv) :
    (∀ f, (initLogger cfg env).1.debug_log = some f →
      f.capacity = if cfg.no_debug_body then 64 * 1024 else 8 * 1024 * 1024) ∧
    (∀ f, (initLogger cfg env).1.request_log = some f →
      f.capacity = if cfg.request_body then 8 * 1024 * 1024 else 64 * 1024) ∧
    (∀ f, (initLogger cfg env).1.error_log = some f → f.capacity = 64 * 1024) ∧
    (∀ f, (initLogger cfg env).1.task_log = some f → f.capacity = 64 * 1024) := by
  refine ⟨fun f h => ?_, fun f h => ?_, fun f h => ?_, fun f h => ?_⟩ <;>
    simp only [initLogger] at h <;>
    exact openWithHeader_capacity _ _ _ _ _ _ _ _ _ h

/-- C7, witness: the debug buffer of a `no_debug_body` configuration has
capacity 64 KiB. -/
theorem C7_buffer_capacities_witness :
    BufWriter.capacity { capacity := 64 * 1024, written := [debug_csv_header ++ "\n"] } =
      (if cfgAllCsv.no_debug_body then 64 * 1024 else 8 * 1024 * 1024) :=
  (C7_buffer_capacities cfgAllCsv envAllOk).1
    { capacity := 64 * 1024, written := [debug_csv_header ++ "\n"] } (by decide)

/-! ### Event routing (claim C2) -/

/-- Replace one stream of the logger state. -/
def LoggerState.setLog (st : LoggerState) : LogKind → Option BufWriter → LoggerState
  | LogKind.debug, v => { st with debug_log := v }
  | LogKind.error, v => { st with error_log := v }
  | LogKind.request, v => { st with request_log := v }
  | LogKind.task, v => { st with task_log := v }

theorem getLog_setLog_same (st : LoggerState) (k : LogKind) (v : Option BufWriter) :
    (st.setLog k v).getLog k = v := by
  cases k <;> rfl

theorem getLog_setLog_other (st : LoggerState) (k j : LogKind) (v : Option BufWriter)
    (h : j ≠ k) : (st.setLog k v).getLog j = st.getLog j := by
  cases k <;> cases j <;> first | rfl | exact absurd rfl h

/-- `processLog` rephrased through the stream selectors: format the message,
then write it to the stream of its kind if enabled. -/
theorem processLog_eq (cfg : GooseConfiguration) (env : IoEnv) (i : Nat)
    (st : LoggerState) (msg : GooseLog) :
    processLog cfg env i st msg =
      match format_of cfg msg with
      | none => none
      | some fm =>
        match st.getLog msg.kind with
        | none => some (st, [])
        | some f =>
          some (st.setLog msg.kind (some (write_to_log_file cfg (env.writeOk i) f fm).1),
            (write_to_log_file cfg (env.writeOk i) f fm).2.1) := by
  cases msg <;> rfl

/-- C2.  Processing one received event touches only the stream matching the
event's kind: the other three streams are unchanged; if the matching stream is
disabled the event is discarded with no write and no console output; and if it
is enabled, the stream is updated exactly by a `write_to_log_file` of the
formatted event. -/
theorem C2_event_routed_to_matching_file (cfg : GooseConfiguration)
    (env : IoEnv) (i : Nat) (st st' : LoggerState) (acts : List LogAction)
    (msg : GooseLog) (h : processLog cfg env i st msg = some (st', acts)) :
    (∀ k, k ≠ msg.kind → st'.getLog k = st.getLog k) ∧
    (st.getLog msg.kind = none → st' = st ∧ acts = []) ∧
    (∀ f, st.getLog msg.kind = some f →
      ∃ fm, format_of cfg msg = some fm ∧
        st'.getLog msg.kind = some (write_to_log_file cfg (env.writeOk i) f fm).1 ∧
        acts = (write_to_log_file cfg (env.writeOk i) f fm).2.1) := by
  rw [processLog_eq] at h
  cases hfm : format_of cfg msg with
  | none => rw [hfm] at h; cases h
  | some fm =>
    rw [hfm] at h
    cases hf : st.getLog msg.kind with
    | none =>
      rw [hf] at h
      obtain ⟨rfl, rfl⟩ : st = st' ∧ [] = acts := by
        cases h; exact ⟨rfl, rfl⟩
      exact ⟨fun k _ => rfl, fun _ => ⟨rfl, rfl⟩,
        fun f hsome => absurd hsome (fun hh => Option.noConfusion hh)⟩
    | some f0 =>
      rw [hf] at h
      obtain ⟨rfl, rfl⟩ :
          st.setLog msg.kind (some (write_to_log_file cfg (env.writeOk i) f0 fm).1) = st'
            ∧ (write_to_log_file cfg (env.writeOk i) f0 fm).2.1 = acts := by
        cases h; exact ⟨rfl, rfl⟩
      refine ⟨fun k hk => getLog_setLog_other st _ k _ hk, ?_, ?_⟩
      · exact fun hh => absurd hh (fun hh2 => Option.noConfusion hh2)
      · intro f hsome
        cases hsome
        exact ⟨fm, rfl, by rw [getLog_setLog_same], rfl⟩

/-- A configuration with all four logs enabled in Raw format. -/
def cfgAllRaw : GooseConfiguration :=
  { debug_log := "d.log", debug_format := some GooseLogFormat.Raw,
    error_log := "e.log", error_format := some GooseLogFormat.Raw,
    request_log := "r.log", request_format := some GooseLogFormat.Raw,
    request_body := false,
    task_log := "t.log", task_format := some GooseLogFormat.Raw,
    no_debug_body := true, manager := false }

/-- A logger state with all four streams open and empty. -/
def stAllOpen : LoggerState :=
  { debug_log := some { capacity := 64 * 1024, written := [] },
    error_log := some { capacity := 64 * 1024, written := [] },
    request_log := some { capacity := 64 * 1024, written := [] },
    task_log := some { capacity := 64 * 1024, written := [] } }

/-- `stAllOpen` after a debug event has been written. -/
def stAfterDebug : LoggerState :=
  { debug_log :=
      some { capacity := 64 * 1024,
             written := [GooseDebug.rawDebug exDebugPlain ++ "\n"] },
    error_log := some { capacity := 64 * 1024, written := [] },
    request_log := some { capacity := 64 * 1024, written := [] },
    task_log := some { capacity := 64 * 1024, written := [] } }

/-- C2, witness: processing a concrete debug event leaves the request stream
untouched. -/
theorem C2_event_routed_to_matching_file_witness :
    stAfterDebug.getLog LogKind.request = stAllOpen.getLog LogKind.request :=
  (C2_event_routed_to_matching_file cfgAllRaw envAllOk 0 stAllOpen stAfterDebug
    [] (GooseLog.Debug exDebugPlain) (by decide)).1 LogKind.request (by decide)

/-! ### Totality of the logger loop (claims C5, C10) -/

theorem processLog_isSome (cfg : GooseConfiguration) (env : IoEnv) (i : Nat)
    (st : LoggerState) (msg : GooseLog) (h : (format_of cfg msg).isSome) :
    (processLog cfg env i st msg).isSome := by
  rw [processLog_eq]
  cases hfm : format_of cfg msg with
  | none => rw [hfm] at h; cases h
  | some fm => cases hf : st.getLog msg.kind <;> simp

theorem runLoop_total (cfg : GooseConfiguration) (env : IoEnv) :
    ∀ (msgs : List (Option GooseLog)) (i : Nat) (st : LoggerState),
      (∀ m, some m ∈ msgs → (format_of cfg m).isSome) →
      ∃ r, runLoop cfg env i st msgs = some r := by
  intro msgs
  induction msgs with
  | nil => exact fun i st _ => ⟨(st, []), rfl⟩
  | cons m rest ih =>
    intro i st hfmt
    cases m with
    | none => exact ⟨(st, []), rfl⟩
    | some msg =>
      have h1 : (format_of cfg msg).isSome := hfmt msg (List.mem_cons_self _ _)
      obtain ⟨⟨st1, acts1⟩, hp⟩ :=
        Option.isSome_iff_exists.mp (processLog_isSome cfg env i st msg h1)
      obtain ⟨⟨st2, acts2⟩, hr⟩ :=
        ih (i + 1) st1 (fun x hx => hfmt x (List.mem_cons_of_mem _ hx))
      exact ⟨(st2, acts1 ++ acts2), by simp only [runLoop, hp, hr]⟩

theorem logger_main_ok (cfg : GooseConfiguration) (env : IoEnv)
    (msgs : List (Option GooseLog)) (st : LoggerState) (tr : List LogAction)
    (res : Except GooseError Unit)
    (h : logger_main cfg env msgs = some (st, tr, res)) :
    res = Except.ok () := by
  simp only [logger_main] at h
  cases hr : runLoop cfg env 0 (initLogger cfg env).1 msgs with
  | none => rw [hr] at h; cases h
  | some p =>
    obtain ⟨st1, acts1⟩ := p
    rw [hr] at h
    cases h
    rfl

/-- C5.  A failed write is harmless: `write_to_log_file` returns `Ok(())`
whatever the outcome, on failure it prints exactly one warning and drops the
message (buffer unchanged), on success it appends the message, and the logger
thread goes on to process every later event and still exits with `Ok(())` —
the file-system oracle (hence any pattern of write failures) can never make
`logger_main` fail. -/
theorem C5_write_failure_never_fatal (cfg : GooseConfiguration) (ok : Bool)
    (f : BufWriter) (m : String) :
    (write_to_log_file cfg ok f m).2.2 = Except.ok () ∧
    (ok = false →
      (write_to_log_file cfg ok f m).1 = f ∧
      (write_to_log_file cfg ok f m).2.1 = [LogAction.warnWriteFailed cfg.debug_log]) ∧
    (ok = true →
      (write_to_log_file cfg ok f m).1 =
        { capacity := f.capacity, written := f.written ++ [m ++ "\n"] } ∧
      (write_to_log_file cfg ok f m).2.1 = []) ∧
    (∀ (env : IoEnv) (msgs : List (Option GooseLog)),
      (∀ x, some x ∈ msgs → (format_of cfg x).isSome) →
      ∃ st tr, logger_main cfg env msgs = some (st, tr, Except.ok ())) := by
  refine ⟨?_, ?_, ?_, ?_⟩
  · unfold write_to_log_file; split <;> rfl
  · intro hok; subst hok; exact ⟨rfl, rfl⟩
  · intro hok; subst hok; exact ⟨rfl, rfl⟩
  · intro env msgs hf
    obtain ⟨⟨st, acts⟩, hr⟩ := runLoop_total cfg env msgs 0 (initLogger cfg env).1 hf
    exact ⟨st, (initLogger cfg env).2 ++ acts ++ flushActions cfg st,
      by simp only [logger_main, hr]⟩

/-- An open, empty 64 KiB writer. -/
def exWriter : BufWriter := { capacity := 64 * 1024, written := [] }

/-- C5, witness: a concrete failed write returns `Ok(())`, keeps the buffer
unchanged and warns once. -/
theorem C5_write_failure_never_fatal_witness :
    (write_to_log_file cfgAllRaw false exWriter "x").2.2 = Except.ok () ∧
    (write_to_log_file cfgAllRaw false exWriter "x").1 = exWriter ∧
    (write_to_log_file cfgAllRaw false exWriter "x").2.1 =
      [LogAction.warnWriteFailed cfgAllRaw.debug_log] :=
  have h := C5_write_failure_never_fatal cfgAllRaw false exWriter "x"
  ⟨h.1, (h.2.1 rfl).1, (h.2.1 rfl).2⟩

def flushKindOf : LogAction → Option LogKind
  | LogAction.infoFlushed k _ => some k
  | _ => none

theorem open_log_file_no_flush (o : Bool) (p t : String) (cap : Nat) :
    ((open_log_file o p t cap).2).filterMap flushKindOf = [] := by
  unfold open_log_file
  split
  · rfl
  · split <;> rfl

theorem write_to_log_file_no_flush (cfg : GooseConfiguration) (ok : Bool)
    (f : BufWriter) (m : String) :
    ((write_to_log_file cfg ok f m).2.1).filterMap flushKindOf = [] := by
  unfold write_to_log_file
  split <;> rfl

theorem openWithHeader_no_flush (cfg : GooseConfiguration) (o hOk : Bool)
    (p t : String) (cap : Nat) (fmt : Option GooseLogFormat) (hd : String) :
    ((openWithHeader cfg o hOk p t cap fmt hd).2).filterMap flushKindOf = [] := by
  simp only [openWithHeader]
  split
  · cases ho : (open_log_file o p t cap).1 with
    | none => exact open_log_file_no_flush o p t cap
    | some f0 =>
      simp only [List.filterMap_append, open_log_file_no_flush,
        write_to_log_file_no_flush, List.append_nil]
  · exact open_log_file_no_flush o p t cap

theorem initLogger_no_flush (cfg : GooseConfiguration) (env : IoEnv) :
    ((initLogger cfg env).2).filterMap flushKindOf = [] := by
  simp only [initLogger, List.filterMap_append, openWithHeader_no_flush,
    List.append_nil]

theorem processLog_no_flush (cfg : GooseConfiguration) (env : IoEnv) (i : Nat)
    (st st' : LoggerState) (acts : List LogAction) (msg : GooseLog)
    (h : processLog cfg env i st msg = some (st', acts)) :
    acts.filterMap flushKindOf = [] := by
  rw [processLog_eq] at h
  cases hfm : format_of cfg msg with
  | none => rw [hfm] at h; cases h
  | some fm =>
    rw [hfm] at h
    cases hf : st.getLog msg.kind with
    | none => rw [hf] at h; cases h; rfl
    | some f0 =>
      rw [hf] at h
      cases h
      exact write_to_log_file_no_flush cfg (env.writeOk i) f0 fm

theorem runLoop_no_flush (cfg : GooseConfiguration) (env : IoEnv) :
    ∀ (msgs : List (Option GooseLog)) (i : Nat) (st st' : LoggerState)
      (acts : List LogAction),
      runLoop cfg env i st msgs = some (st', acts) →
      acts.filterMap flushKindOf = [] := by
  intro msgs
  induction msgs with
  | nil => intro i st st' acts h; cases h; rfl
  | cons m rest ih =>
    intro i st st' acts h
    cases m with
    | none => cases h; rfl
    | some msg =>
      simp only [runLoop] at h
      cases hp : processLog cfg env i st msg with
      | none => simp [hp] at h
      | some p =>
        obtain ⟨st1, acts1⟩ := p
        simp only [hp] at h
        cases hr : runLoop cfg env (i + 1) st1 rest with
        | none => simp [hr] at h
        | some r =>
          obtain ⟨st2, acts2⟩ := r
          simp only [hr, Option.some.injEq, Prod.mk.injEq] at h
          obtain ⟨rfl, rfl⟩ := h
          rw [List.filterMap_append, processLog_no_flush cfg env i st st1 acts1 msg hp,
            ih (i + 1) st1 st2 acts2 hr]
          rfl

theorem flushActions_proj (cfg : GooseConfiguration) (st : LoggerState) :
    (flushActions cfg st).filterMap flushKindOf =
      [LogKind.debug, LogKind.request, LogKind.task, LogKind.error].filter
        (fun k => (st.getLog k).isSome) := by
  obtain ⟨d, e, r, t⟩ := st
  cases d <;> cases e <;> cases r <;> cases t <;> rfl

theorem runLoop_stops_at_none (cfg : GooseConfiguration) (env : IoEnv) :
    ∀ (pre rest : List (Option GooseLog)) (i : Nat) (st : LoggerState),
      none ∉ pre →
      runLoop cfg env i st (pre ++ none :: rest) = runLoop cfg env i st pre := by
  intro pre
  induction pre with
  | nil => intro rest i st _; rfl
  | cons m pre' ih =>
    intro rest i st hpre
    cases m with
    | none => exact absurd (List.mem_cons_self _ _) hpre
    | some msg =>
      have hpre' : none ∉ pre' := fun hm => hpre (List.mem_cons_of_mem _ hm)
      simp only [List.cons_append, runLoop]
      cases hp : processLog cfg env i st msg with
      | none => simp only [hp]
      | some p =>
        obtain ⟨st1, acts1⟩ := p
        simp only [hp, List.append_eq]
        rw [ih rest (i + 1) st1 hpre']

/-- C3.  On receiving `None` the logger stops reading (whatever follows the
first `None` has no effect on the outcome), exits returning `Ok(())`, and the
flushes in its console trace are exactly the enabled streams in the fixed
source order debug, request, task, error. -/
theorem C3_none_flush_order_ok (cfg : GooseConfiguration) (env : IoEnv)
    (pre rest : List (Option GooseLog)) (st : LoggerState)
    (tr : List LogAction) (res : Except GooseError Unit)
    (hpre : none ∉ pre)
    (h : logger_main cfg env (pre ++ none :: rest) = some (st, tr, res)) :
    logger_main cfg env pre = some (st, tr, res) ∧
    res = Except.ok () ∧
    tr.filterMap flushKindOf =
      [LogKind.debug, LogKind.request, LogKind.task, LogKind.error].filter
        (fun k => (st.getLog k).isSome) := by
  have hstop : logger_main cfg env (pre ++ none :: rest) = logger_main cfg env pre := by
    simp only [logger_main,
      runLoop_stops_at_none cfg env pre rest 0 (initLogger cfg env).1 hpre]
  refine ⟨hstop ▸ h, logger_main_ok cfg env _ st tr res h, ?_⟩
  simp only [logger_main] at h
  cases hr : runLoop cfg env 0 (initLogger cfg env).1 (pre ++ none :: rest) with
  | none => simp [hr] at h
  | some p =>
    obtain ⟨st1, acts1⟩ := p
    simp only [hr, Option.some.injEq, Prod.mk.injEq] at h
    obtain ⟨rfl, rfl, rfl⟩ := h
    rw [List.filterMap_append, List.filterMap_append, initLogger_no_flush,
      runLoop_no_flush cfg env _ 0 _ _ _ hr, flushActions_proj]
    simp

/-- A configuration with only the task log enabled, in Raw format. -/
def cfgTaskRaw : GooseConfiguration :=
  { debug_log := "", debug_format := none,
    error_log := "", error_format := none,
    request_log := "", request_format := none, request_body := false,
    task_log := "t.log", task_format := some GooseLogFormat.Raw,
    no_debug_body := false, manager := false }

/-- The logger state after `cfgTaskRaw` initialisation. -/
def stTaskOnly : LoggerState :=
  { debug_log := none, error_log := none, request_log := none,
    task_log := some { capacity := 64 * 1024, written := [] } }

/-- C3, witness: a concrete run receiving only the `None` shutdown message. -/
theorem C3_none_flush_order_ok_witness :
    logger_main cfgTaskRaw envAllOk [] =
      some (stTaskOnly,
        [LogAction.infoOpened "task log" "t.log",
         LogAction.infoFlushed LogKind.task "t.log"],
        Except.ok ()) :=
  (C3_none_flush_order_ok cfgTaskRaw envAllOk [] [] stTaskOnly
    [LogAction.infoOpened "task log" "t.log",
     LogAction.infoFlushed LogKind.task "t.log"]
    (Except.ok ()) (by simp) (by decide)).1

theorem configure_loggers_manager (cfg : GooseConfiguration)
    (defaults : GooseDefaults) :
    (configure_loggers cfg defaults).manager = cfg.manager := by
  simp only [configure_loggers]

theorem configure_loggers_formats_isSome (cfg : GooseConfiguration)
    (defaults : GooseDefaults) (h : cfg.manager = false) :
    (configure_loggers cfg defaults).debug_format.isSome ∧
    (configure_loggers cfg defaults).error_format.isSome ∧
    (configure_loggers cfg defaults).request_format.isSome ∧
    (configure_loggers cfg defaults).task_format.isSome := by
  simp only [configure_loggers, h]
  refine ⟨?_, ?_, ?_, ?_⟩
  · cases hx : cfg.debug_format <;> cases hd : defaults.debug_format <;>
      simp [get_value, hx, hd]
  · cases hx : cfg.error_format <;> cases hd : defaults.error_format <;>
      simp [get_value, hx, hd]
  · cases hx : cfg.request_format <;> cases hd : defaults.request_format <;>
      simp [get_value, hx, hd]
  · cases hx : cfg.task_format <;> cases hd : defaults.task_format <;>
      simp [get_value, hx, hd]

theorem setup_loggers_spawn (cfg : GooseConfiguration) (defaults : GooseDefaults)
    (h : (setup_loggers cfg defaults).2 = true) :
    cfg.manager = false ∧
    (setup_loggers cfg defaults).1 = configure_loggers cfg defaults := by
  unfold setup_loggers at h ⊢
  cases hm : cfg.manager with
  | true => rw [hm] at h; simp at h
  | false =>
    rw [hm] at h
    simp only [Bool.false_eq_true, if_false] at h ⊢
    refine ⟨trivial, ?_⟩
    split <;> rfl

theorem formats_isSome_format_of (cfg : GooseConfiguration)
    (h1 : cfg.debug_format.isSome) (h2 : cfg.error_format.isSome)
    (h3 : cfg.request_format.isSome) (h4 : cfg.task_format.isSome) :
    ∀ msg, (format_of cfg msg).isSome := by
  intro msg
  cases msg with
  | Debug m =>
    simp only [format_of, format_message_debug]
    cases hx : cfg.debug_format with
    | none => rw [hx] at h1; cases h1
    | some f => cases f <;> rfl
  | Error m =>
    simp only [format_of, format_message_error]
    cases hx : cfg.error_format with
    | none => rw [hx] at h2; cases h2
    | some f => cases f <;> rfl
  | Request m =>
    simp only [format_of, format_message_request]
    cases hx : cfg.request_format with
    | none => rw [hx] at h3; cases h3
    | some f => cases f <;> rfl
  | Task m =>
    simp only [format_of, format_message_task]
    cases hx : cfg.task_format with
    | none => rw [hx] at h4; cases h4
    | some f => cases f <;> rfl

theorem logger_main_isSome (cfg : GooseConfiguration) (env : IoEnv)
    (msgs : List (Option GooseLog)) (hf : ∀ m, (format_of cfg m).isSome) :
    (logger_main cfg env msgs).isSome := by
  obtain ⟨⟨st, acts⟩, hr⟩ :=
    runLoop_total cfg env msgs 0 (initLogger cfg env).1 (fun m _ => hf m)
  simp [logger_main, hr]

/-- C10.  Whenever `setup_loggers` actually spawns a logger thread, the
resolved configuration has all four format options set (`configure_loggers`
defaults each to `Json` off-manager), so `format_message` never takes its
`unreachable!()` branch: every message formats to `Some`, and `logger_main`
can never panic, whatever events arrive and whatever the file system does.
In manager mode `setup_loggers` never spawns a thread at all. -/
theorem C10_unreachable_never_reached (cfg : GooseConfiguration)
    (defaults : GooseDefaults) (h : (setup_loggers cfg defaults).2 = true) :
    ((setup_loggers cfg defaults).1.debug_format).isSome ∧
    ((setup_loggers cfg defaults).1.error_format).isSome ∧
    ((setup_loggers cfg defaults).1.request_format).isSome ∧
    ((setup_loggers cfg defaults).1.task_format).isSome ∧
    (∀ msg, (format_of (setup_loggers cfg defaults).1 msg).isSome) ∧
    (∀ (env : IoEnv) (msgs : List (Option GooseLog)),
      (logger_main (setup_loggers cfg defaults).1 env msgs).isSome) ∧
    (∀ cfgM : GooseConfiguration, cfgM.manager = true →
      (setup_loggers cfgM defaults).2 = false) := by
  obtain ⟨hm, he⟩ := setup_loggers_spawn cfg defaults h
  rw [he]
  obtain ⟨f1, f2, f3, f4⟩ := configure_loggers_formats_isSome cfg defaults hm
  have hfmt := formats_isSome_format_of _ f1 f2 f3 f4
  exact ⟨f1, f2, f3, f4, hfmt,
    fun env msgs => logger_main_isSome _ env msgs hfmt,
    fun cfgM hM => by unfold setup_loggers; rw [hM]; simp⟩

/-- No declared defaults. -/
def defaultsNone : GooseDefaults :=
  { debug_log := none, debug_format := none,
    error_log := none, error_format := none,
    request_log := none, request_format := none, request_body := none,
    task_log := none, task_format := none }

/-- C10, witness: a concrete non-manager configuration that spawns the logger
thread resolves a debug format. -/
theorem C10_unreachable_never_reached_witness :
    ((setup_loggers cfgAllCsv defaultsNone).1.debug_format).isSome = true :=
  (C10_unreachable_never_reached cfgAllCsv defaultsNone (by decide)).1

theorem open_log_file_fail (p t : String) (cap : Nat) (hp : p ≠ "") :
    open_log_file false p t cap = (none, [LogAction.errorOpenFailed t p]) := by
  have hp' : p.isEmpty = false := by
    rw [Bool.eq_false_iff]
    intro hh
    exact hp ((String.isEmpty_iff p).mp hh)
  simp [open_log_file, hp']

theorem openWithHeader_fail (cfg : GooseConfiguration) (hOk : Bool)
    (p t : String) (cap : Nat) (fmt : Option GooseLogFormat) (hd : String)
    (hp : p ≠ "") :
    openWithHeader cfg false hOk p t cap fmt hd =
      (none, [LogAction.errorOpenFailed t p]) := by
  simp only [openWithHeader, open_log_file_fail p t cap hp]
  split <;> rfl

/-- The capacity `logger_main` requests for each stream. -/
def capacityOf (cfg : GooseConfiguration) : LogKind → Nat
  | LogKind.debug => if cfg.no_debug_body then 64 * 1024 else 8 * 1024 * 1024
  | LogKind.error => 64 * 1024
  | LogKind.request => if cfg.request_body then 8 * 1024 * 1024 else 64 * 1024
  | LogKind.task => 64 * 1024

theorem initLogger_getLog (cfg : GooseConfiguration) (env : IoEnv) (k : LogKind) :
    (initLogger cfg env).1.getLog k =
      (openWithHeader cfg (env.openOk k) (env.headerWriteOk k) (logPathOf cfg k)
        (logTypeNameOf k) (capacityOf cfg k) (logFormatOf cfg k) (headerOf k)).1 := by
  cases k <;> rfl

theorem initLogger_trace (cfg : GooseConfiguration) (env : IoEnv) :
    (initLogger cfg env).2 =
      (openWithHeader cfg (env.openOk LogKind.debug) (env.headerWriteOk LogKind.debug)
        cfg.debug_log "debug file" (capacityOf cfg LogKind.debug) cfg.debug_format
        debug_csv_header).2 ++
      (openWithHeader cfg (env.openOk LogKind.error) (env.headerWriteOk LogKind.error)
        cfg.error_log "error log" (64 * 1024) cfg.error_format error_csv_header).2 ++
      (openWithHeader cfg (env.openOk LogKind.request) (env.headerWriteOk LogKind.request)
        cfg.request_log "request log" (capacityOf cfg LogKind.request)
        cfg.request_format requests_csv_header).2 ++
      (openWithHeader cfg (env.openOk LogKind.task) (env.headerWriteOk LogKind.task)
        cfg.task_log "task log" (64 * 1024) cfg.task_format tasks_csv_header).2 := rfl

theorem processLog_discard (cfg : GooseConfiguration) (env : IoEnv) (i : Nat)
    (st : LoggerState) (msg : GooseLog) (hnone : st.getLog msg.kind = none)
    (hfmt : (format_of cfg msg).isSome) :
    processLog cfg env i st msg = some (st, []) := by
  rw [processLog_eq]
  cases hfm : format_of cfg msg with
  | none => rw [hfm] at hfmt; cases hfmt
  | some fm => rw [hnone]

theorem runLoop_preserves_none (cfg : GooseConfiguration) (env : IoEnv)
    (k : LogKind) :
    ∀ (msgs : List (Option GooseLog)) (i : Nat) (st st' : LoggerState)
      (acts : List LogAction),
      st.getLog k = none →
      runLoop cfg env i st msgs = some (st', acts) →
      st'.getLog k = none := by
  intro msgs
  induction msgs with
  | nil => intro i st st' acts hk h; cases h; exact hk
  | cons m rest ih =>
    intro i st st' acts hk h
    cases m with
    | none => cases h; exact hk
    | some msg =>
      simp only [runLoop] at h
      cases hp : processLog cfg env i st msg with
      | none => simp [hp] at h
      | some p =>
        obtain ⟨st1, acts1⟩ := p
        simp only [hp] at h
        cases hr : runLoop cfg env (i + 1) st1 rest with
        | none => simp [hr] at h
        | some r =>
          obtain ⟨st2, acts2⟩ := r
          simp only [hr, Option.some.injEq, Prod.mk.injEq] at h
          obtain ⟨rfl, rfl⟩ := h
          refine ih (i + 1) st1 st2 acts2 ?_ hr
          rw [processLog_eq] at hp
          cases hfm : format_of cfg msg with
          | none => rw [hfm] at hp; cases hp
          | some fm =>
            rw [hfm] at hp
            cases hf : st.getLog msg.kind with
            | none =>
              rw [hf] at hp
              cases hp
              exact hk
            | some f0 =>
              rw [hf] at hp
              cases hp
              by_cases hjk : k = msg.kind
              · rw [hjk] at hk; rw [hk] at hf; cases hf
              · rw [getLog_setLog_other st msg.kind k _ hjk]
                exact hk

theorem processLog_agree (cfg : GooseConfiguration) (env : IoEnv) (i : Nat)
    (k : LogKind) (st1 st2 : LoggerState) (msg : GooseLog)
    (hag : ∀ j, j ≠ k → st1.getLog j = st2.getLog j) :
    ∀ p1 p2, processLog cfg env i st1 msg = some p1 →
      processLog cfg env i st2 msg = some p2 →
      ∀ j, j ≠ k → p1.1.getLog j = p2.1.getLog j := by
  intro p1 p2 h1 h2 j hj
  rw [processLog_eq] at h1 h2
  cases hfm : format_of cfg msg with
  | none => rw [hfm] at h1; cases h1
  | some fm =>
    rw [hfm] at h1 h2
    by_cases hk : msg.kind = k
    · -- the event targets the failed stream: neither side touches stream j
      have e1 : p1.1.getLog j = st1.getLog j := by
        cases hf1 : st1.getLog msg.kind with
        | none => rw [hf1] at h1; cases h1; rfl
        | some f => rw [hf1] at h1; cases h1; rw [hk]; exact getLog_setLog_other st1 k j _ hj
      have e2 : p2.1.getLog j = st2.getLog j := by
        cases hf2 : st2.getLog msg.kind with
        | none => rw [hf2] at h2; cases h2; rfl
        | some f => rw [hf2] at h2; cases h2; rw [hk]; exact getLog_setLog_other st2 k j _ hj
      rw [e1, e2]
      exact hag j hj
    · -- the event targets a live stream: both sides do the same thing to it
      have hmk : st1.getLog msg.kind = st2.getLog msg.kind := hag msg.kind hk
      cases hf1 : st1.getLog msg.kind with
      | none =>
        rw [hf1] at h1
        rw [hf1] at hmk
        rw [← hmk] at h2
        cases h1
        cases h2
        exact hag j hj
      | some f =>
        rw [hf1] at h1
        rw [hf1] at hmk
        rw [← hmk] at h2
        cases h1
        cases h2
        by_cases hjm : j = msg.kind
        · rw [hjm, getLog_setLog_same, getLog_setLog_same]
        · rw [getLog_setLog_other st1 msg.kind j _ hjm,
            getLog_setLog_other st2 msg.kind j _ hjm]
          exact hag j hj

theorem runLoop_agree (cfg : GooseConfiguration) (env : IoEnv) (k : LogKind) :
    ∀ (msgs : List (Option GooseLog)) (i : Nat) (st1 st2 : LoggerState),
      (∀ j, j ≠ k → st1.getLog j = st2.getLog j) →
      ∀ r1 r2, runLoop cfg env i st1 msgs = some r1 →
        runLoop cfg env i st2 msgs = some r2 →
        ∀ j, j ≠ k → r1.1.getLog j = r2.1.getLog j := by
  intro msgs
  induction msgs with
  | nil =>
    intro i st1 st2 hag r1 r2 h1 h2 j hj
    cases h1; cases h2; exact hag j hj
  | cons m rest ih =>
    intro i st1 st2 hag r1 r2 h1 h2 j hj
    cases m with
    | none => cases h1; cases h2; exact hag j hj
    | some msg =>
      simp only [runLoop] at h1 h2
      cases hp1 : processLog cfg env i st1 msg with
      | none => simp [hp1] at h1
      | some p1 =>
        cases hp2 : processLog cfg env i st2 msg with
        | none => simp [hp2] at h2
        | some p2 =>
          obtain ⟨sta, actsa⟩ := p1
          obtain ⟨stb, actsb⟩ := p2
          simp only [hp1] at h1
          simp only [hp2] at h2
          cases hr1 : runLoop cfg env (i + 1) sta rest with
          | none => simp [hr1] at h1
          | some q1 =>
            cases hr2 : runLoop cfg env (i + 1) stb rest with
            | none => simp [hr2] at h2
            | some q2 =>
              obtain ⟨stc, actsc⟩ := q1
              obtain ⟨std2, actsd⟩ := q2
              simp only [hr1, Option.some.injEq, Prod.mk.injEq] at h1
              simp only [hr2, Option.some.injEq, Prod.mk.injEq] at h2
              obtain ⟨rfl, rfl⟩ := h1
              obtain ⟨rfl, rfl⟩ := h2
              have hag' : ∀ j, j ≠ k → sta.getLog j = stb.getLog j :=
                processLog_agree cfg env i k st1 st2 msg hag (sta, actsa)
                  (stb, actsb) hp1 hp2
              exact ih (i + 1) sta stb hag' (stc, actsc) (std2, actsd) hr1 hr2 j hj

theorem processLog_env (cfg : GooseConfiguration) (env env' : IoEnv)
    (hw : env'.writeOk = env.writeOk) (i : Nat) (st : LoggerState)
    (msg : GooseLog) :
    processLog cfg env' i st msg = processLog cfg env i st msg := by
  rw [processLog_eq, processLog_eq, hw]

theorem runLoop_env (cfg : GooseConfiguration) (env env' : IoEnv)
    (hw : env'.writeOk = env.writeOk) :
    ∀ (msgs : List (Option GooseLog)) (i : Nat) (st : LoggerState),
      runLoop cfg env' i st msgs = runLoop cfg env i st msgs := by
  intro msgs
  induction msgs with
  | nil => intro i st; rfl
  | cons m rest ih =>
    intro i st
    cases m with
    | none => rfl
    | some msg =>
      simp only [runLoop, processLog_env cfg env env' hw i st msg, ih]

/-- C4.  If a stream's log file fails to open at startup while its path is
configured: the stream is disabled (`None`) from initialisation on; the
failure is reported with an `error!` line; the other streams are opened
exactly as they would be under any oracle agreeing on them; an event for the
dead stream is discarded without any write or console output; the thread
still finishes with `Ok(())` and the stream is still disabled at the end; and
the final contents of every other stream are identical to those of a run
under an oracle (for example a fully-succeeding one) that differs only on the
failed stream — the error never propagates anywhere. -/
theorem C4_open_failure_is_isolated (cfg : GooseConfiguration)
    (env env' : IoEnv) (k : LogKind)
    (hpath : logPathOf cfg k ≠ "")
    (hopen : env.openOk k = false)
    (hagree : ∀ j, j ≠ k →
      env'.openOk j = env.openOk j ∧ env'.headerWriteOk j = env.headerWriteOk j)
    (hwrite : env'.writeOk = env.writeOk) :
    (initLogger cfg env).1.getLog k = none ∧
    LogAction.errorOpenFailed (logTypeNameOf k) (logPathOf cfg k) ∈
      (initLogger cfg env).2 ∧
    (∀ j, j ≠ k → (initLogger cfg env).1.getLog j = (initLogger cfg env').1.getLog j) ∧
    (∀ (i : Nat) (st : LoggerState) (msg : GooseLog), msg.kind = k →
      st.getLog k = none → (format_of cfg msg).isSome →
      processLog cfg env i st msg = some (st, [])) ∧
    (∀ msgs st tr res, logger_main cfg env msgs = some (st, tr, res) →
      res = Except.ok () ∧ st.getLog k = none) ∧
    (∀ msgs st tr res st' tr' res',
      logger_main cfg env msgs = some (st, tr, res) →
      logger_main cfg env' msgs = some (st', tr', res') →
      ∀ j, j ≠ k → st.getLog j = st'.getLog j) := by
  have hinit : (initLogger cfg env).1.getLog k = none := by
    rw [initLogger_getLog, hopen,
      openWithHeader_fail cfg _ _ _ _ _ _ hpath]
  refine ⟨hinit, ?_, ?_, ?_, ?_, ?_⟩
  · -- the error! line is in the initialisation trace
    rw [initLogger_trace]
    cases k <;>
      simp only [logPathOf, logTypeNameOf] at hpath ⊢ <;>
      rw [hopen, openWithHeader_fail cfg _ _ _ _ _ _ hpath] <;>
      simp [List.mem_append]
  · -- other streams open independently of this stream's failure
    intro j hj
    rw [initLogger_getLog, initLogger_getLog, (hagree j hj).1, (hagree j hj).2]
  · -- events for the dead stream are discarded
    intro i st msg hk hnone hfmt
    exact processLog_discard cfg env i st msg (by rw [hk]; exact hnone) hfmt
  · -- the run still ends in Ok(()) with the stream disabled
    intro msgs st tr res h
    refine ⟨logger_main_ok cfg env msgs st tr res h, ?_⟩
    simp only [logger_main] at h
    cases hr : runLoop cfg env 0 (initLogger cfg env).1 msgs with
    | none => simp [hr] at h
    | some p =>
      obtain ⟨st1, acts1⟩ := p
      simp only [hr, Option.some.injEq, Prod.mk.injEq] at h
      obtain ⟨rfl, rfl, rfl⟩ := h
      exact runLoop_preserves_none cfg env k msgs 0 _ st1 acts1 hinit hr
  · -- the surviving streams end with the same contents as under env'
    intro msgs st tr res st' tr' res' h h' j hj
    simp only [logger_main] at h h'
    rw [runLoop_env cfg env env' hwrite] at h'
    cases hr : runLoop cfg env 0 (initLogger cfg env).1 msgs with
    | none => simp [hr] at h
    | some p =>
      cases hr' : runLoop cfg env 0 (initLogger cfg env').1 msgs with
      | none => simp [hr'] at h'
      | some p' =>
        obtain ⟨st1, acts1⟩ := p
        obtain ⟨st1', acts1'⟩ := p'
        simp only [hr, Option.some.injEq, Prod.mk.injEq] at h
        simp only [hr', Option.some.injEq, Prod.mk.injEq] at h'
        obtain ⟨rfl, rfl, rfl⟩ := h
        obtain ⟨rfl, rfl, rfl⟩ := h'
        refine runLoop_agree cfg env k msgs 0 _ _ ?_ (st1, acts1) (st1', acts1')
          hr hr' j hj
        intro j2 hj2
        rw [initLogger_getLog, initLogger_getLog, (hagree j2 hj2).1,
          (hagree j2 hj2).2]

/-- An oracle where only the error log fails to open. -/
def envFailError : IoEnv :=
  { openOk := fun k => match k with
      | LogKind.error => false
      | _ => true,
    headerWriteOk := fun _ => true, writeOk := fun _ => true }

/-- C4, witness: with a concrete configuration whose error log fails to open,
the error stream is disabled and the failure is reported. -/
theorem C4_open_failure_is_isolated_witness :
    (initLogger cfgAllRaw envFailError).1.getLog LogKind.error = none ∧
    LogAction.errorOpenFailed (logTypeNameOf LogKind.error)
      (logPathOf cfgAllRaw LogKind.error) ∈ (initLogger cfgAllRaw envFailError).2 :=
  have h := C4_open_failure_is_isolated cfgAllRaw envFailError envAllOk
    LogKind.error (by decide) rfl
    (fun j hj => by cases j <;> first | exact ⟨rfl, rfl⟩ | exact absurd rfl hj)
    rfl
  ⟨h.1, h.2.1⟩

theorem aggregate_counter (events : List (String × Bool)) :
    ∀ (m : String → GooseRequestAggregate) (name : String),
      ((events.foldl applyRequestEvent m) name).counter =
        (m name).counter + (events.filter (fun e => e.1 == name)).length := by
  induction events with
  | nil => intro m name; simp
  | cons e rest ih =>
    intro m name
    rw [List.foldl_cons, ih]
    by_cases h1 : name = e.1
    · subst h1
      cases he : e.2 <;>
        simp [applyRequestEvent, he, List.filter_cons] <;> omega
    · have h2 : ¬(e.1 = name) := fun hh => h1 hh.symm
      cases he : e.2 <;>
        simp [applyRequestEvent, h1, h2, he, List.filter_cons] <;> omega

theorem aggregate_success (events : List (String × Bool)) :
    ∀ (m : String → GooseRequestAggregate) (name : String),
      ((events.foldl applyRequestEvent m) name).success_count =
        (m name).success_count +
          (events.filter (fun e => e.1 == name && e.2)).length := by
  induction events with
  | nil => intro m name; simp
  | cons e rest ih =>
    intro m name
    rw [List.foldl_cons, ih]
    by_cases h1 : name = e.1
    · subst h1
      cases he : e.2 <;>
        simp [applyRequestEvent, he, List.filter_cons] <;> omega
    · have h2 : ¬(e.1 = name) := fun hh => h1 hh.symm
      cases he : e.2 <;>
        simp [applyRequestEvent, h1, h2, he, List.filter_cons] <;> omega

theorem aggregate_fail (events : List (String × Bool)) :
    ∀ (m : String → GooseRequestAggregate) (name : String),
      ((events.foldl applyRequestEvent m) name).fail_count =
        (m name).fail_count +
          (events.filter (fun e => e.1 == name && !e.2)).length := by
  induction events with
  | nil => intro m name; simp
  | cons e rest ih =>
    intro m name
    rw [List.foldl_cons, ih]
    by_cases h1 : name = e.1
    · subst h1
      cases he : e.2 <;>
        simp [applyRequestEvent, he, List.filter_cons] <;> omega
    · have h2 : ¬(e.1 = name) := fun hh => h1 hh.symm
      cases he : e.2 <;>
        simp [applyRequestEvent, h1, h2, he, List.filter_cons] <;> omega

theorem filter_split_bool (l : List (String × Bool)) (name : String) :
    (l.filter (fun e => e.1 == name)).length =
      (l.filter (fun e => e.1 == name && e.2)).length +
      (l.filter (fun e => e.1 == name && !e.2)).length := by
  induction l with
  | nil => rfl
  | cons e rest ih =>
    cases he : e.2 <;> by_cases h1 : e.1 == name <;>
      simp [List.filter_cons, he, h1, ih] <;> omega

theorem aggregate_counter_eq_count (events : List (String × Bool)) (name : String) :
    (aggregateRequests events name).counter = (events.map Prod.fst).count name := by
  rw [aggregateRequests, aggregate_counter events _ name, List.count,
    List.countP_map, List.countP_eq_length_filter]
  simp only [Nat.zero_add]
  rfl

theorem sum_counters_eq_length (events : List (String × Bool)) :
    (((events.map Prod.fst).dedup).map
      (fun name => (aggregateRequests events name).counter)).sum =
      events.length := by
  have h : (((events.map Prod.fst).dedup).map
      (fun name => (aggregateRequests events name).counter)) =
      (((events.map Prod.fst).dedup).map
        (fun name => (events.map Prod.fst).count name)) :=
    List.map_congr_left (fun name _ => aggregate_counter_eq_count events name)
  rw [h, List.sum_map_count_dedup_eq_length, List.length_map]

theorem runLoop_request_count (cfg : GooseConfiguration) (env : IoEnv)
    (hw : ∀ i, env.writeOk i = true) (hfmt : cfg.request_format.isSome) :
    ∀ (ms : List GooseRequestMetric) (i : Nat) (st : LoggerState) (f : BufWriter),
      st.request_log = some f →
      ∃ st' acts f',
        runLoop cfg env i st (ms.map (fun m => some (GooseLog.Request m))) =
          some (st', acts) ∧
        st'.request_log = some f' ∧
        f'.written.length = f.written.length + ms.length := by
  intro ms
  induction ms with
  | nil =>
    intro i st f hf
    exact ⟨st, [], f, rfl, hf, by simp⟩
  | cons m rest ih =>
    intro i st f hf
    obtain ⟨fm, hfm⟩ : ∃ fm, format_message_request cfg m = some fm := by
      cases hx : cfg.request_format with
      | none => rw [hx] at hfmt; cases hfmt
      | some fv =>
        simp only [format_message_request, hx]
        cases fv <;> exact ⟨_, rfl⟩
    have hp : processLog cfg env i st (GooseLog.Request m) =
        some ({ st with
                  request_log :=
                    some (BufWriter.mk f.capacity (f.written ++ [fm ++ "\n"])) },
              []) := by
      simp only [processLog, hfm, hf, write_to_log_file, hw i, if_true]
    obtain ⟨st', acts, f', hrun, hf', hl⟩ := ih (i + 1)
      { st with
          request_log :=
            some (BufWriter.mk f.capacity (f.written ++ [fm ++ "\n"])) }
      (BufWriter.mk f.capacity (f.written ++ [fm ++ "\n"])) rfl
    refine ⟨st', acts, f', ?_, hf', ?_⟩
    · simp only [List.map_cons, runLoop, hp, hrun, List.nil_append]
    · simp only [hl, List.length_append, List.length_cons, List.length_nil]
      omega

/-- C9.  Per-endpoint metric-count equality and request-log record count:
for every endpoint `counter = success_count + fail_count`; the counters summed
over all endpoints equal the number of request events; and a logger run that
receives exactly one `Request` message per event (with no write failures, i.e.
absent logger drops) ends with `Ok(())` and a request log holding exactly that
summed count of records beyond the ones (such as a CSV header) present after
initialisation. -/
theorem C9_metric_count_equality
    (events : List (String × Bool)) (cfg : GooseConfiguration) (env : IoEnv)
    (ms : List GooseRequestMetric) (f0 : BufWriter)
    (hfmt : cfg.request_format.isSome)
    (hw : ∀ i, env.writeOk i = true)
    (hlen : ms.length = events.length)
    (hopen : (initLogger cfg env).1.request_log = some f0) :
    (∀ name, (aggregateRequests events name).counter =
      (aggregateRequests events name).success_count +
      (aggregateRequests events name).fail_count) ∧
    ((((events.map Prod.fst).dedup).map
      (fun name => (aggregateRequests events name).counter)).sum = events.length) ∧
    (∃ st tr f, logger_main cfg env (ms.map (fun m => some (GooseLog.Request m))) =
        some (st, tr, Except.ok ()) ∧
      st.request_log = some f ∧
      f.written.length = f0.written.length +
        (((events.map Prod.fst).dedup).map
          (fun name => (aggregateRequests events name).counter)).sum) := by
  refine ⟨?_, sum_counters_eq_length events, ?_⟩
  · intro name
    simp only [aggregateRequests]
    rw [aggregate_counter, aggregate_success, aggregate_fail]
    simp only [Nat.zero_add]
    exact filter_split_bool events name
  · obtain ⟨st', acts, f', hrun, hf', hl⟩ :=
      runLoop_request_count cfg env hw hfmt ms 0 (initLogger cfg env).1 f0 hopen
    refine ⟨st', (initLogger cfg env).2 ++ acts ++ flushActions cfg st', f',
      ?_, hf', ?_⟩
    · simp only [logger_main, hrun]
    · rw [hl, hlen, sum_counters_eq_length events]

/-- Concrete request outcome records: two endpoints, one failure. -/
def exEvents : List (String × Bool) := [("a", true), ("a", false), ("b", true)]

/-- C9, witness: the counter identity evaluated at endpoint `a` of the
concrete event list. -/
theorem C9_metric_count_equality_witness :
    (aggregateRequests exEvents "a").counter =
      (aggregateRequests exEvents "a").success_count +
      (aggregateRequests exEvents "a").fail_count :=
  (C9_metric_count_equality exEvents cfgAllRaw envAllOk
    [exRequestMetric, exRequestMetric, exRequestMetric]
    (BufWriter.mk (64 * 1024) []) (by decide) (fun i => rfl) (by decide)
    (by decide)).1 "a"
